import Mathlib

/-!
# Verification of the plex-file-namer inference and disambiguation engine

Shallow embedding of `src/plex_file_renamer.py` (title normalizer, duration
disambiguator, date parsing, filename/folder analyzer, name formatters),
together with theorems settling the specification claims.

Strings are modelled as Lean `String`/`List Char`; Python regex searches are
translated into explicit left-to-right scanning functions that implement the
exact pattern semantics (leftmost match, greedy quantifiers with the
backtracking the concrete patterns require, word boundaries).  Python floats
(file durations, runtimes) are modelled as rationals.  Python truthiness is
made explicit wherever the source branches on it.
-/

namespace PlexRenamer

/-! ## Python string primitives -/

/-- Python `\s` / `str.strip()` whitespace (ASCII portion). -/
def pyIsSpace (c : Char) : Bool :=
  c = ' ' || c = '\t' || c = '\n' || c = '\r' || c = '\x0b' || c = '\x0c'

/-- Python `str.lower()` (ASCII portion). -/
def pyLower (s : String) : String :=
  String.mk (s.data.map Char.toLower)

/-- Strip leading and trailing whitespace from a char list. -/
def stripList (cs : List Char) : List Char :=
  ((cs.dropWhile pyIsSpace).reverse.dropWhile pyIsSpace).reverse

/-- Python `str.strip()`. -/
def pyStrip (s : String) : String :=
  String.mk (stripList s.data)

/-- Helper for whitespace splitting: `cur` is the current word, reversed. -/
def splitWsGo : List Char → List Char → List (List Char)
  | cur, [] => if cur.isEmpty then [] else [cur.reverse]
  | cur, c :: cs =>
    if pyIsSpace c then
      if cur.isEmpty then splitWsGo [] cs else cur.reverse :: splitWsGo [] cs
    else splitWsGo (c :: cur) cs

/-- Python `str.split()` with no argument: split on whitespace runs, no empties. -/
def pySplit (s : String) : List String :=
  (splitWsGo [] s.data).map String.mk

/-- Python `' '.join(words)`. -/
def joinWords (ws : List String) : String :=
  String.intercalate " " ws

/-! ## TMDbAPI: Roman numeral maps, title normalizer, title matcher -/

/-- `TMDbAPI.ROMAN_TO_NUMBER`. -/
def ROMAN_TO_NUMBER : List (String × String) :=
  [("i", "1"), ("ii", "2"), ("iii", "3"), ("iv", "4"), ("v", "5"),
   ("vi", "6"), ("vii", "7"), ("viii", "8"), ("ix", "9"), ("x", "10")]

/-- `TMDbAPI.NUMBER_TO_ROMAN = {v: k for k, v in ROMAN_TO_NUMBER.items()}`. -/
def NUMBER_TO_ROMAN : List (String × String) :=
  ROMAN_TO_NUMBER.map (fun p => (p.2, p.1))

/-- `TMDbAPI.normalize_title_for_matching`. -/
def normalize_title_for_matching (title : String) : String :=
  let title_lower := pyStrip (pyLower title)
  let words := pySplit title_lower
  match words.getLast? with
  | none => title_lower
  | some last_word =>
    match ROMAN_TO_NUMBER.lookup last_word with
    | some n => joinWords (words.dropLast ++ [n])
    | none =>
      match NUMBER_TO_ROMAN.lookup last_word with
      | some r => joinWords (words.dropLast ++ [r])
      | none => title_lower

/-- `TMDbAPI.titles_match`. -/
def titles_match (search_title api_title : String) : Bool :=
  let search_lower := pyStrip (pyLower search_title)
  let api_lower := pyStrip (pyLower api_title)
  if search_lower = api_lower then true
  else
    let search_normalized := normalize_title_for_matching search_title
    let api_normalized := normalize_title_for_matching api_title
    if search_normalized = api_lower ∨ search_lower = api_normalized then true
    else if search_normalized = api_normalized ∧ search_normalized ≠ search_lower then true
    else false

example : titles_match "Rocky II" "Rocky 2" = true := by decide
example : titles_match "Rocky II" "Rocky III" = false := by decide

/-! ## TMDbAPI._match_by_duration

A search result item: `title`/`name` are the optional TMDb fields used for
display-title resolution; `runtime` models the runtime derived from the lazily
fetched detail record (`details['runtime']` for movies,
`details['episode_run_time'][0]` for TV) — the detail service is an opaque
collaborator, so its answer is carried on the item.  Durations are rationals
(Python floats). -/

structure SearchItem where
  title : Option String
  name : Option String
  runtime : Option ℚ
deriving DecidableEq

/-- `item.get('title') or item.get('name', 'Unknown')` (Python `or` falls
through on falsy values, i.e. on a missing key or an empty string). -/
def displayTitle (item : SearchItem) : String :=
  match item.title with
  | some t => if t ≠ "" then t else (match item.name with | some n => n | none => "Unknown")
  | none => match item.name with | some n => n | none => "Unknown"

/-- One entry of the `candidates` list built by `_match_by_duration`. -/
structure DurCandidate where
  item : SearchItem
  duration : ℚ
  duration_diff : ℚ
  title : String
deriving DecidableEq

/-- The body of the `for item in results[:5]` loop: a candidate is kept only
when its detail-derived runtime is truthy (`if details.get('runtime')` /
`if item_duration`), i.e. present and nonzero. -/
def mkCandidate (duration_minutes : ℚ) (item : SearchItem) : Option DurCandidate :=
  match item.runtime with
  | some r =>
    if r ≠ 0 then some ⟨item, r, |duration_minutes - r|, displayTitle item⟩ else none
  | none => none

/-- First element of `xs` minimising `f`, earliest wins on ties.  This is
`list.sort(key=f); list[0]` for Python's stable sort. -/
def firstMinBy {α : Type} (f : α → ℚ) (x : α) (xs : List α) : α :=
  xs.foldl (fun acc y => if f y < f acc then y else acc) x

/-- `if search_query and self.titles_match(search_query, candidate['title'])`:
the stored query is `None` when no search ran, and falsy when empty. -/
def queryMatches (search_query : Option String) (candidate_title : String) : Bool :=
  match search_query with
  | some q => q ≠ "" && titles_match q candidate_title
  | none => false

/-- `TMDbAPI._match_by_duration`.  `search_query` models
`self._last_search_query` (set by `search_movie`/`search_tv`). -/
def match_by_duration (results : List SearchItem) (duration_minutes : ℚ)
    (search_query : Option String) : Option SearchItem :=
  match results with
  | [] => none
  | r0 :: rest =>
    if rest = [] then some r0
    else
      let candidates := ((r0 :: rest).take 5).filterMap (mkCandidate duration_minutes)
      match candidates with
      | [] => some r0
      | c0 :: cs =>
        let exact_name_matches := (c0 :: cs).filter (fun c => queryMatches search_query c.title)
        match exact_name_matches with
        | e0 :: es =>
          match (e0 :: es).find? (fun c => c.duration_diff ≤ 2) with
          | some c => some c.item
          | none =>
            let higher_exact_matches := (e0 :: es).filter (fun c => duration_minutes ≤ c.duration)
            match higher_exact_matches with
            | h0 :: hs => some ((firstMinBy (fun c => c.duration) h0 hs).item)
            | [] => some ((firstMinBy (fun c => c.duration_diff) e0 es).item)
        | [] =>
          let higher_duration_candidates := (c0 :: cs).filter (fun c => duration_minutes ≤ c.duration)
          match higher_duration_candidates with
          | h0 :: hs => some ((firstMinBy (fun c => c.duration) h0 hs).item)
          | [] => some ((firstMinBy (fun c => c.duration_diff) c0 cs).item)

/-- The two Dune search hits of the C1 scenario. -/
def dune155 : SearchItem := ⟨some "Dune", none, some 155⟩

/-- The longer Dune cut of the C1 scenario. -/
def dune201 : SearchItem := ⟨some "Dune", none, some 201⟩

/-! ### Lemmas about `match_by_duration` -/

lemma firstMinBy_mem {α : Type} (f : α → ℚ) (x : α) (xs : List α) :
    firstMinBy f x xs ∈ x :: xs := by
  induction xs generalizing x with
  | nil => simp [firstMinBy]
  | cons y ys ih =>
    have hstep : firstMinBy f x (y :: ys) = firstMinBy f (if f y < f x then y else x) ys := by
      simp [firstMinBy]
    rw [hstep]
    rcases List.mem_cons.mp (ih (if f y < f x then y else x)) with h1 | h1
    · rw [h1]
      split
      · exact List.mem_cons_of_mem _ (List.mem_cons_self _ _)
      · exact List.mem_cons_self _ _
    · exact List.mem_cons_of_mem _ (List.mem_cons_of_mem _ h1)

lemma mkCandidate_item {d : ℚ} {it : SearchItem} {c : DurCandidate}
    (h : mkCandidate d it = some c) : c.item = it := by
  unfold mkCandidate at h
  split at h
  · split at h
    · cases h; rfl
    · simp at h
  · simp at h

lemma mem_of_mem_candidates {results : List SearchItem} {d : ℚ} {c : DurCandidate}
    (h : c ∈ (results.take 5).filterMap (mkCandidate d)) : c.item ∈ results := by
  rcases List.mem_filterMap.mp h with ⟨a, ha, hma⟩
  rw [mkCandidate_item hma]
  exact List.take_subset 5 results ha

lemma match_by_duration_mem {results : List SearchItem} {d : ℚ} {q : Option String}
    {item : SearchItem} (h : match_by_duration results d q = some item) : item ∈ results := by
  cases results with
  | nil => exact absurd h (by simp [match_by_duration])
  | cons r0 rest =>
    simp only [match_by_duration] at h
    split at h
    · cases h; exact List.mem_cons_self _ _
    · split at h
      · cases h; exact List.mem_cons_self _ _
      · rename_i c0 cs hC
        split at h
        · rename_i e0 es hE
          split at h
          · rename_i c hfind
            cases h
            have hc : c ∈ e0 :: es := List.mem_of_find?_eq_some hfind
            rw [← hE] at hc
            have hc2 := List.mem_of_mem_filter hc
            rw [← hC] at hc2
            exact mem_of_mem_candidates hc2
          · split at h
            · rename_i h0 hs hH
              cases h
              have hm := firstMinBy_mem (fun c => c.duration) h0 hs
              rw [← hH] at hm
              have hm2 := List.mem_of_mem_filter hm
              rw [← hE] at hm2
              have hm3 := List.mem_of_mem_filter hm2
              rw [← hC] at hm3
              exact mem_of_mem_candidates hm3
            · cases h
              have hm := firstMinBy_mem (fun c => c.duration_diff) e0 es
              rw [← hE] at hm
              have hm2 := List.mem_of_mem_filter hm
              rw [← hC] at hm2
              exact mem_of_mem_candidates hm2
        · rename_i hE
          split at h
          · rename_i h0 hs hH
            cases h
            have hm := firstMinBy_mem (fun c => c.duration) h0 hs
            rw [← hH] at hm
            have hm2 := List.mem_of_mem_filter hm
            rw [← hC] at hm2
            exact mem_of_mem_candidates hm2
          · cases h
            have hm := firstMinBy_mem (fun c => c.duration_diff) c0 cs
            rw [← hC] at hm
            exact mem_of_mem_candidates hm

lemma match_by_duration_isSome (r0 : SearchItem) (rest : List SearchItem) (d : ℚ)
    (q : Option String) : ∃ item, match_by_duration (r0 :: rest) d q = some item := by
  simp only [match_by_duration]
  split
  · exact ⟨r0, rfl⟩
  · split
    · exact ⟨r0, rfl⟩
    · split
      · split
        · exact ⟨_, rfl⟩
        · split
          · exact ⟨_, rfl⟩
          · exact ⟨_, rfl⟩
      · split
        · exact ⟨_, rfl⟩
        · exact ⟨_, rfl⟩

/-! ### Claim theorems for the disambiguator -/

/-- C1 counterexample: with candidates Dune/155 and Dune/201 (both exact title
matches) and target duration 156, `_match_by_duration` returns the 155-minute
candidate — its difference (1 min) is within the ≤ 2 min tolerance checked
first — and not the 201-minute candidate the claim requires. -/
theorem c1_counterexample :
    match_by_duration [dune155, dune201] 156 (some "Dune") = some dune155 ∧
      match_by_duration [dune155, dune201] 156 (some "Dune") ≠ some dune201 := by
  have h : titles_match "Dune" "Dune" = true := by decide
  have e1 : |(156 : ℚ) - 155| = 1 := by norm_num
  have e2 : |(156 : ℚ) - 201| = 45 := by norm_num
  have hmain : match_by_duration [dune155, dune201] 156 (some "Dune") = some dune155 := by
    simp [match_by_duration, mkCandidate, dune155, dune201, displayTitle, queryMatches,
      firstMinBy, h, e1, e2]
  refine ⟨hmain, ?_⟩
  rw [hmain]
  intro hcontra
  have h2 := congrArg SearchItem.runtime (Option.some.inj hcontra)
  norm_num [dune155, dune201] at h2

/-- C1 amended: at target 156 the 155-minute exact-title candidate wins via the
≤ 2-minute rule (§4.4 step 4a precedes 4b); the nearest-above rule only decides
when no exact match is within 2 minutes — e.g. at target 158 (diffs 3 and 43)
the 201-minute candidate is selected over the numerically closer 155-minute one. -/
theorem c1_amended :
    match_by_duration [dune155, dune201] 156 (some "Dune") = some dune155 ∧
      match_by_duration [dune155, dune201] 158 (some "Dune") = some dune201 := by
  have h : titles_match "Dune" "Dune" = true := by decide
  constructor
  · have e1 : |(156 : ℚ) - 155| = 1 := by norm_num
    have e2 : |(156 : ℚ) - 201| = 45 := by norm_num
    simp [match_by_duration, mkCandidate, dune155, dune201, displayTitle, queryMatches,
      firstMinBy, h, e1, e2]
  · have e1 : |(158 : ℚ) - 155| = 3 := by norm_num
    have e2 : |(158 : ℚ) - 201| = 43 := by norm_num
    have f1 : decide ((3 : ℚ) ≤ 2) = false := by decide
    have f2 : decide ((43 : ℚ) ≤ 2) = false := by decide
    have f3 : decide ((158 : ℚ) ≤ 155) = false := by decide
    have f4 : decide ((158 : ℚ) ≤ 201) = true := by decide
    simp [match_by_duration, mkCandidate, dune155, dune201, displayTitle, queryMatches,
      firstMinBy, h, e1, e2, f1, f2, f3, f4, List.find?, List.filter]

/-- C4: on an empty candidate list the disambiguator returns none, and on a
single-candidate list it returns that candidate unconditionally, for every
target duration and query — no duration comparison happens. -/
theorem c4_single_candidate (item : SearchItem) (d : ℚ) (q : Option String) :
    match_by_duration [] d q = none ∧ match_by_duration [item] d q = some item := by
  exact ⟨rfl, by simp [match_by_duration]⟩

/-- C10: the disambiguator returns none exactly on the empty input, and on any
non-empty input it returns an element of the input list. -/
theorem c10_result_from_input (results : List SearchItem) (d : ℚ) (q : Option String) :
    (results = [] → match_by_duration results d q = none) ∧
      (results ≠ [] → ∃ item, match_by_duration results d q = some item ∧ item ∈ results) := by
  constructor
  · rintro rfl; rfl
  · intro hne
    cases results with
    | nil => exact absurd rfl hne
    | cons r0 rest =>
      obtain ⟨item, hitem⟩ := match_by_duration_isSome r0 rest d q
      exact ⟨item, hitem, match_by_duration_mem hitem⟩

/-- C10 witness: concrete run on the two-element Dune list. -/
theorem c10_result_from_input_witness :
    ∃ item, match_by_duration [dune155, dune201] 156 (some "Dune") = some item ∧
      item ∈ [dune155, dune201] :=
  (c10_result_from_input [dune155, dune201] 156 (some "Dune")).2 (by simp)

/-! ### Title matching: spec characterisation and symmetry -/

/-- The spec's wording of `titlesMatch`: raw lower-cased trimmed forms equal,
or either side's numeral-converted normalized form equals the other side's raw
or normalized form. -/
def titlesMatchSpec (a b : String) : Bool :=
  let la := pyStrip (pyLower a)
  let lb := pyStrip (pyLower b)
  let na := normalize_title_for_matching a
  let nb := normalize_title_for_matching b
  decide (la = lb ∨ na = lb ∨ la = nb ∨ na = nb)

lemma titles_match_eq_titlesMatchSpec (a b : String) :
    titles_match a b = titlesMatchSpec a b := by
  by_cases h1 : pyStrip (pyLower a) = pyStrip (pyLower b)
  · simp [titles_match, titlesMatchSpec, h1]
  · by_cases h2 : normalize_title_for_matching a = pyStrip (pyLower b)
    · simp [titles_match, titlesMatchSpec, h1, h2]
    · by_cases h3 : pyStrip (pyLower a) = normalize_title_for_matching b
      · simp [titles_match, titlesMatchSpec, h1, h2, h3]
      · by_cases h4 : normalize_title_for_matching a = normalize_title_for_matching b
        · have hne : normalize_title_for_matching a ≠ pyStrip (pyLower a) := by
            intro heq
            exact h3 (heq ▸ h4)
          simp [titles_match, titlesMatchSpec, h1, h2, h3, h4, hne]
          exact Or.inr (fun he => h3 he.symm)
        · simp [titles_match, titlesMatchSpec, h1, h2, h3, h4]

/-- C3: `titles_match "Rocky II" "Rocky 2"` is true, `titles_match "Rocky II"
"Rocky III"` is false, and in general two titles match exactly when their raw
lower-cased trimmed forms are equal or either side's numeral-converted
normalized form equals the other side's raw or normalized form. -/
theorem c3_titles_match :
    titles_match "Rocky II" "Rocky 2" = true ∧
      titles_match "Rocky II" "Rocky III" = false ∧
      ∀ a b, titles_match a b = titlesMatchSpec a b :=
  ⟨by decide, by decide, titles_match_eq_titlesMatchSpec⟩

/-- C9: `titles_match` is symmetric. -/
theorem c9_titles_match_symm (a b : String) : titles_match a b = titles_match b a := by
  rw [titles_match_eq_titlesMatchSpec a b, titles_match_eq_titlesMatchSpec b a]
  simp only [titlesMatchSpec, decide_eq_decide]
  constructor
  · rintro (h | h | h | h)
    · exact Or.inl h.symm
    · exact Or.inr (Or.inr (Or.inl h.symm))
    · exact Or.inr (Or.inl h.symm)
    · exact Or.inr (Or.inr (Or.inr h.symm))
  · rintro (h | h | h | h)
    · exact Or.inl h.symm
    · exact Or.inr (Or.inr (Or.inl h.symm))
    · exact Or.inr (Or.inl h.symm)
    · exact Or.inr (Or.inr (Or.inr h.symm))

/-! ## Name formatters (`format_movie_name`, `format_tv_name`) -/

/-- Python truthiness of an optional int (`if tmdb_id:` etc.). -/
def truthyNatOpt : Option Nat → Bool
  | none => false
  | some n => n ≠ 0

/-- Python truthiness of an optional string (`if edition:` etc.). -/
def truthyStrOpt : Option String → Bool
  | none => false
  | some s => s ≠ ""

/-- A character matched by `re.sub(r'[<>:"/\\|?*]', '', ...)`. -/
def isIllegalChar (c : Char) : Bool :=
  c = '<' || c = '>' || c = ':' || c = '"' || c = '/' || c = '\\' ||
    c = '|' || c = '?' || c = '*'

/-- `re.sub(r'[<>:"/\\|?*]', '', s)`: drop every illegal filesystem character. -/
def stripIllegal (s : String) : String :=
  String.mk (s.data.filter (fun c => !isIllegalChar c))

/-- Does a rendered name still contain an illegal filesystem character? -/
def hasIllegal (s : String) : Bool :=
  s.data.any isIllegalChar

/-- Python `f"{n:02d}"` for a natural number. -/
def pad2 (n : Nat) : String :=
  if n < 10 then "0" ++ toString n else toString n

/-- Does `\s*\(\d{1,2}:\d{2}\)` match at the head position?  Returns the
suffix after the match. -/
def matchBroadcastAt (cs : List Char) : Option (List Char) :=
  match cs.dropWhile pyIsSpace with
  | c0 :: rest =>
    if c0 = '(' then
      let ds := rest.takeWhile Char.isDigit
      if ds.length = 1 ∨ ds.length = 2 then
        match rest.dropWhile Char.isDigit with
        | a :: b :: c :: d :: r3 =>
          if a = ':' ∧ b.isDigit ∧ c.isDigit ∧ d = ')' then some r3 else none
        | _ => none
      else none
    else none
  | [] => none

/-- Fueled global substitution for `re.sub(r'\s*\(\d{1,2}:\d{2}\)', '', s)`.
The fuel is the length of the string; every step consumes at least one
character, so it never runs out. -/
def gsubBroadcast : Nat → List Char → List Char
  | 0, cs => cs
  | fuel + 1, cs =>
    match matchBroadcastAt cs with
    | some r => gsubBroadcast fuel r
    | none =>
      match cs with
      | [] => []
      | c :: r => c :: gsubBroadcast fuel r

/-- Remove broadcast-time annotations like `(19:00)` from an episode title. -/
def removeBroadcastTimes (s : String) : String :=
  String.mk (gsubBroadcast s.data.length s.data)

/-- `PlexFileNamer.format_movie_name`. -/
def format_movie_name (title : String) (year : Nat) (tmdb_id : Option Nat)
    (edition : Option String) (optional_info : Option String) : String :=
  let safe_title := stripIllegal title
  let f1 := safe_title ++ " (" ++ toString year ++ ")"
  let f2 := f1 ++ (if truthyNatOpt tmdb_id then
      " \x7btmdb-" ++ toString (tmdb_id.getD 0) ++ "\x7d" else "")
  let f3 := f2 ++ (if truthyStrOpt edition then
      " \x7bedition-" ++
        (let e := edition.getD ""
         if 32 < e.length then String.mk (e.data.take 32) else e) ++ "\x7d"
    else "")
  f3 ++ (if truthyStrOpt optional_info then " [" ++ optional_info.getD "" ++ "]" else "")

/-- `PlexFileNamer.format_tv_name`. -/
def format_tv_name (show_title : String) (season episode : Nat)
    (episode_title : Option String) (year : Option Nat) (tmdb_id : Option Nat)
    (optional_info : Option String) : String :=
  let safe_title := stripIllegal show_title
  let f1 := safe_title ++ (if truthyNatOpt year then
      " (" ++ toString (year.getD 0) ++ ")" else "")
  let f2 := f1 ++ (if truthyNatOpt tmdb_id then
      " \x7btmdb-" ++ toString (tmdb_id.getD 0) ++ "\x7d" else "")
  let f3 := f2 ++ " - s" ++ pad2 season ++ "e" ++ pad2 episode
  let f4 := f3 ++ (if truthyStrOpt episode_title then
      " - " ++ stripIllegal (removeBroadcastTimes (episode_title.getD "")) else "")
  f4 ++ (if truthyStrOpt optional_info then " [" ++ optional_info.getD "" ++ "]" else "")

lemma hasIllegal_append (a b : String) :
    hasIllegal (a ++ b) = (hasIllegal a || hasIllegal b) := by
  simp [hasIllegal]

lemma hasIllegal_stripIllegal (s : String) : hasIllegal (stripIllegal s) = false := by
  simp only [hasIllegal, stripIllegal]
  rw [List.any_eq_false]
  intro x hx
  have h := (List.mem_filter.mp hx).2
  simpa using h

/-- C8 counterexample: an edition name keeps its illegal characters — only the
title is character-stripped, the edition is merely length-truncated. -/
theorem c8_counterexample :
    hasIllegal (format_movie_name "Movie" 2020 none (some "Director/s Cut") none) = true := by
  decide

/-- C8 amended: the movie/show title and the episode title are stripped of all
illegal filesystem characters in the rendered name, and the edition name is
truncated to at most 32 characters (and passed through unchanged when already
short enough) — but the edition is not character-stripped. -/
theorem c8_amended :
    (∀ t et, hasIllegal (format_tv_name t 1 2 (some et) (some 2020) (some 123) none) = false) ∧
      (∀ t, hasIllegal (format_movie_name t 2020 (some 123) none none) = false) ∧
      (∀ t (y : Nat) e, e ≠ "" → ∃ ed,
        format_movie_name t y none (some e) none =
          stripIllegal t ++ " (" ++ toString y ++ ") \x7bedition-" ++ ed ++ "\x7d" ∧
        ed.length ≤ 32 ∧ (e.length ≤ 32 → ed = e)) := by
  refine ⟨?_, ?_, ?_⟩
  · intro t et
    simp only [format_tv_name, truthyNatOpt, truthyStrOpt]
    by_cases het : et = "" <;>
      simp [het, hasIllegal_append, hasIllegal_stripIllegal] <;> decide
  · intro t
    simp only [format_movie_name, truthyNatOpt, truthyStrOpt]
    simp [hasIllegal_append, hasIllegal_stripIllegal]
    decide
  · intro t y e he
    refine ⟨if 32 < e.length then String.mk (e.data.take 32) else e, ?_, ?_, ?_⟩
    · apply String.ext
      simp [format_movie_name, truthyStrOpt, truthyNatOpt, he]
    · split
      · rename_i hgt
        have : (String.mk (e.data.take 32)).length = (e.data.take 32).length := rfl
        rw [this, List.length_take]
        omega
      · rename_i hle
        omega
    · intro hle
      rw [if_neg (by omega)]

/-- C8 witness: the amended edition clause at a concrete 40-character edition. -/
theorem c8_amended_witness :
    ∃ ed, format_movie_name "M" 2020 none (some "An Extremely Long Edition Name Indeed OK") none =
        stripIllegal "M" ++ " (" ++ toString 2020 ++ ") \x7bedition-" ++ ed ++ "\x7d" ∧
      ed.length ≤ 32 ∧ (("An Extremely Long Edition Name Indeed OK" : String).length ≤ 32 → ed = "An Extremely Long Edition Name Indeed OK") :=
  c8_amended.2.2 "M" 2020 "An Extremely Long Edition Name Indeed OK" (by decide)

/-! ## PatternMatcher._parse_full_date -/

/-- Python `int()` on a digit string. -/
def digitsToNat (cs : List Char) : Nat :=
  cs.foldl (fun n c => 10 * n + (c.toNat - 48)) 0

/-- `str.zfill(2)` on a digit string. -/
def zfill2 (cs : List Char) : List Char :=
  if cs.length < 2 then List.replicate (2 - cs.length) '0' ++ cs else cs

/-- Gregorian leap year, as used by `datetime`. -/
def isLeapYear (y : Nat) : Bool :=
  (y % 4 = 0 ∧ y % 100 ≠ 0) ∨ y % 400 = 0

/-- Days in a month, as validated by the `datetime` constructor. -/
def daysInMonth (y m : Nat) : Nat :=
  if m = 2 then (if isLeapYear y then 29 else 28)
  else if m = 4 ∨ m = 6 ∨ m = 9 ∨ m = 11 then 30
  else 31

/-- Validity of `datetime(year, month, day)`: the constructor raises
`ValueError` outside these ranges (`MINYEAR = 1`, `MAXYEAR = 9999`). -/
def isValidDate (y m d : Nat) : Bool :=
  1 ≤ y ∧ y ≤ 9999 ∧ 1 ≤ m ∧ m ≤ 12 ∧ 1 ≤ d ∧ d ≤ daysInMonth y m

/-- Two-digit year mapping: `f"20{year}" if int(year) < 50 else f"19{year}"`. -/
def toYear4 (ys : List Char) : List Char :=
  if digitsToNat ys < 50 then '2' :: '0' :: ys else '1' :: '9' :: ys

/-- The character class `[-.\s]` used between date components. -/
def isSepF (c : Char) : Bool :=
  c = '-' || c = '.' || pyIsSpace c

/-- Result dict of `_parse_full_date`: `year` is `int(year)`, `month`/`day`
are the zero-filled strings, `air_date` the assembled `YYYY-MM-DD` string. -/
structure FullDateResult where
  year : Nat
  month : String
  day : String
  air_date : String
  part_number : Option Nat
deriving DecidableEq

/-- Shared tail of every `_parse_full_date` branch: validate via the
`datetime` constructor, then build the result dict.  (`strptime` on the
assembled zero-filled string accepts exactly the component triples the
constructor accepts.) -/
def mkDateResult (day month year : List Char) (pn : Option Nat) : Option FullDateResult :=
  if isValidDate (digitsToNat year) (digitsToNat month) (digitsToNat day) then
    some ⟨digitsToNat year, String.mk (zfill2 month), String.mk (zfill2 day),
          String.mk (year ++ '-' :: zfill2 month ++ '-' :: zfill2 day), pn⟩
  else none

/-- `^(\d{4})[-.\s](\d{1,2})[-.\s](\d{1,2})$` → (year, month, day). -/
def matchF_yyyy_mm_dd (cs : List Char) : Option (List Char × List Char × List Char) :=
  match cs with
  | a :: b :: c :: d :: s1 :: rest1 =>
    if a.isDigit ∧ b.isDigit ∧ c.isDigit ∧ d.isDigit ∧ isSepF s1 then
      let g2 := rest1.takeWhile Char.isDigit
      if g2.length = 1 ∨ g2.length = 2 then
        match rest1.dropWhile Char.isDigit with
        | s2 :: rest2 =>
          if isSepF s2 ∧ rest2 ≠ [] ∧ rest2.all Char.isDigit ∧ rest2.length ≤ 2 then
            some ([a, b, c, d], g2, rest2)
          else none
        | [] => none
      else none
    else none
  | _ => none

/-- `^(\d{1,2})[-.\s](\d{1,2})[-.\s](\d{4})$` → (g1, g2, year). -/
def matchF_xx_xx_yyyy (cs : List Char) : Option (List Char × List Char × List Char) :=
  let g1 := cs.takeWhile Char.isDigit
  if g1.length = 1 ∨ g1.length = 2 then
    match cs.dropWhile Char.isDigit with
    | s1 :: rest1 =>
      if isSepF s1 then
        let g2 := rest1.takeWhile Char.isDigit
        if g2.length = 1 ∨ g2.length = 2 then
          match rest1.dropWhile Char.isDigit with
          | s2 :: rest2 =>
            if isSepF s2 ∧ rest2.length = 4 ∧ rest2.all Char.isDigit then
              some (g1, g2, rest2)
            else none
          | [] => none
        else none
      else none
    | [] => none
  else none

/-- `^(\d{1,2})[-.\s](\d{1,2})[-.\s](\d{2})\s+[Pp][Tt](\d+)$` →
(day, month, two-digit year, part digits). -/
def matchF_dd_mm_yy_pt (cs : List Char) :
    Option (List Char × List Char × List Char × List Char) :=
  let g1 := cs.takeWhile Char.isDigit
  if g1.length = 1 ∨ g1.length = 2 then
    match cs.dropWhile Char.isDigit with
    | s1 :: rest1 =>
      if isSepF s1 then
        let g2 := rest1.takeWhile Char.isDigit
        if g2.length = 1 ∨ g2.length = 2 then
          match rest1.dropWhile Char.isDigit with
          | s2 :: y1 :: y2 :: rest3 =>
            if isSepF s2 ∧ y1.isDigit ∧ y2.isDigit then
              let sp := rest3.takeWhile pyIsSpace
              if sp ≠ [] then
                match rest3.dropWhile pyIsSpace with
                | p :: t :: rest5 =>
                  if (p = 'P' ∨ p = 'p') ∧ (t = 'T' ∨ t = 't') ∧
                      rest5 ≠ [] ∧ rest5.all Char.isDigit then
                    some (g1, g2, [y1, y2], rest5)
                  else none
                | _ => none
              else none
            else none
          | _ => none
        else none
      else none
    | [] => none
  else none

/-- `^(\d{1,2})[-.\s](\d{1,2})[-.\s](\d{2})$` → (g1, g2, two-digit year). -/
def matchF_xx_xx_yy (cs : List Char) : Option (List Char × List Char × List Char) :=
  let g1 := cs.takeWhile Char.isDigit
  if g1.length = 1 ∨ g1.length = 2 then
    match cs.dropWhile Char.isDigit with
    | s1 :: rest1 =>
      if isSepF s1 then
        let g2 := rest1.takeWhile Char.isDigit
        if g2.length = 1 ∨ g2.length = 2 then
          match rest1.dropWhile Char.isDigit with
          | s2 :: rest2 =>
            if isSepF s2 ∧ rest2.length = 2 ∧ rest2.all Char.isDigit then
              some (g1, g2, rest2)
            else none
          | [] => none
        else none
      else none
    | [] => none
  else none

/-- `PatternMatcher._parse_full_date`: the six anchored patterns tried in
source order; a pattern whose interpretation fails `datetime` validation is
skipped and the next one tried (`except ValueError: continue`).  The
`format_spec` parameter only feeds the source's default branch, which is
unreachable for this fixed pattern list. -/
def parse_full_date (text : String) (_format_spec : String) : Option FullDateResult :=
  let cs := text.data
  let try1 := match matchF_yyyy_mm_dd cs with
    | some (y, m, d) => mkDateResult d m y none
    | none => none
  match try1 with
  | some r => some r
  | none =>
    let try2 := match matchF_xx_xx_yyyy cs with
      | some (d, m, y) => mkDateResult d m y none
      | none => none
    match try2 with
    | some r => some r
    | none =>
      let try3 := match matchF_dd_mm_yy_pt cs with
        | some (d, m, ys, pt) => mkDateResult d m (toYear4 ys) (some (digitsToNat pt))
        | none => none
      match try3 with
      | some r => some r
      | none =>
        let try4 := match matchF_xx_xx_yy cs with
          | some (d, m, ys) => mkDateResult d m (toYear4 ys) none
          | none => none
        match try4 with
        | some r => some r
        | none =>
          let try5 := match matchF_xx_xx_yy cs with
            | some (m, d, ys) => mkDateResult d m (toYear4 ys) none
            | none => none
          match try5 with
          | some r => some r
          | none =>
            match matchF_xx_xx_yyyy cs with
            | some (m, d, y) => mkDateResult d m y none
            | none => none

lemma digitsToNat_replicate_zero (n : Nat) (cs : List Char) :
    digitsToNat (List.replicate n '0' ++ cs) = digitsToNat cs := by
  induction n with
  | zero => rfl
  | succ k ih =>
    simpa [List.replicate_succ, digitsToNat] using ih

lemma digitsToNat_zfill2 (cs : List Char) : digitsToNat (zfill2 cs) = digitsToNat cs := by
  unfold zfill2
  split
  · exact digitsToNat_replicate_zero _ cs
  · rfl

lemma mkDateResult_valid {day month year : List Char} {pn : Option Nat} {r : FullDateResult}
    (h : mkDateResult day month year pn = some r) :
    isValidDate r.year (digitsToNat r.month.data) (digitsToNat r.day.data) = true := by
  unfold mkDateResult at h
  split at h
  · rename_i hv
    cases h
    simpa [digitsToNat_zfill2] using hv
  · simp at h

/-- C7: full-date parsing tries `YYYY-MM-DD`, `DD-MM-YYYY`, `DD-MM-YY` with
optional `PT` suffix, `M-DD-YY`, `MM-DD-YYYY` in that fixed order; every
returned result is a real calendar date (calendar-invalid interpretations are
skipped, letting the next pattern fire, and inputs invalid under every pattern
yield none); two-digit years below 50 map to 20xx, others to 19xx. -/
theorem c7_date_parsing :
    (∀ text fs r, parse_full_date text fs = some r →
        isValidDate r.year (digitsToNat r.month.data) (digitsToNat r.day.data) = true) ∧
      parse_full_date "2014-05-06" "auto" = some ⟨2014, "05", "06", "2014-05-06", none⟩ ∧
      parse_full_date "06-05-2014" "auto" = some ⟨2014, "05", "06", "2014-05-06", none⟩ ∧
      parse_full_date "12-11-10" "auto" = some ⟨2010, "11", "12", "2010-11-12", none⟩ ∧
      parse_full_date "04-13-09" "auto" = some ⟨2009, "04", "13", "2009-04-13", none⟩ ∧
      parse_full_date "03-04-13 PT2" "auto" = some ⟨2013, "04", "03", "2013-04-03", some 2⟩ ∧
      parse_full_date "04-13-2009" "auto" = some ⟨2009, "04", "13", "2009-04-13", none⟩ ∧
      parse_full_date "01-02-49" "auto" = some ⟨2049, "02", "01", "2049-02-01", none⟩ ∧
      parse_full_date "01-02-50" "auto" = some ⟨1950, "02", "01", "1950-02-01", none⟩ ∧
      parse_full_date "13-13-2009" "auto" = none := by
  refine ⟨?_, by decide, by decide, by decide, by decide, by decide, by decide,
    by decide, by decide, by decide⟩
  intro text fs r h
  simp only [parse_full_date] at h
  split at h
  · rename_i h1
    split at h1
    · exact mkDateResult_valid (Option.some.inj h ▸ h1)
    · simp at h1
  · split at h
    · rename_i h2
      split at h2
      · exact mkDateResult_valid (Option.some.inj h ▸ h2)
      · simp at h2
    · split at h
      · rename_i h3
        split at h3
        · exact mkDateResult_valid (Option.some.inj h ▸ h3)
        · simp at h3
      · split at h
        · rename_i h4
          split at h4
          · exact mkDateResult_valid (Option.some.inj h ▸ h4)
          · simp at h4
        · split at h
          · rename_i h5
            split at h5
            · exact mkDateResult_valid (Option.some.inj h ▸ h5)
            · simp at h5
          · split at h
            · exact mkDateResult_valid h
            · simp at h

/-- C7 witness: the validity clause applied to the concrete parse of
`12-11-10`. -/
theorem c7_date_parsing_witness :
    isValidDate (2010 : Nat) (digitsToNat ("11" : String).data)
      (digitsToNat ("12" : String).data) = true := by
  have h := c7_date_parsing.1 "12-11-10" "auto" ⟨2010, "11", "12", "2010-11-12", none⟩
    (by decide)
  simpa using h

/-! ## PlexFileNamer.parse_filename: regex scanning machinery

Each `re.search(pattern, name)` becomes a left-to-right scan (`searchWith`)
over a per-position matcher implementing exactly that pattern; the component
before the match start (`name[:match.start()]`) is returned alongside the
captured groups. -/

/-- Leftmost-match scan: try the matcher at every position, returning the text
before the match start together with the matcher's result. -/
def searchWith {α : Type} (m : List Char → Option α) : List Char → Option (List Char × α)
  | [] =>
    match m [] with
    | some a => some ([], a)
    | none => none
  | c :: cs =>
    match m (c :: cs) with
    | some a => some ([], a)
    | none =>
      match searchWith m cs with
      | some (pre, a) => some (c :: pre, a)
      | none => none

/-- Index of the last `'.'`, if any. -/
def lastDotPos : List Char → Option Nat
  | [] => none
  | c :: cs =>
    match lastDotPos cs with
    | some n => some (n + 1)
    | none => if c = '.' then some 0 else none

/-- `pathlib.Path(filename).stem`: strip the suffix when the last dot sits
strictly inside the name (`0 < i < len(name) - 1`). -/
def pathStemList (cs : List Char) : List Char :=
  match lastDotPos cs with
  | some i => if 0 < i ∧ i < cs.length - 1 then cs.take i else cs
  | none => cs

/-- Scan for the first `']'` (a `'\n'` aborts, since `.` does not match it). -/
def findCloseBracket : List Char → Option (List Char)
  | [] => none
  | c :: cs => if c = ']' then some cs else if c = '\n' then none else findCloseBracket cs

/-- Does `\s*\[.*?\]\s*` match at the head position?  Returns the suffix after
the whole match. -/
def matchBracketAt (cs : List Char) : Option (List Char) :=
  match cs.dropWhile pyIsSpace with
  | c :: rest =>
    if c = '[' then
      match findCloseBracket rest with
      | some after => some (after.dropWhile pyIsSpace)
      | none => none
    else none
  | [] => none

/-- Fueled driver for `re.sub(r'\s*\[.*?\]\s*', '', name)`. -/
def removeBracketsGo : Nat → List Char → List Char
  | 0, cs => cs
  | fuel + 1, cs =>
    match matchBracketAt cs with
    | some after => removeBracketsGo fuel after
    | none =>
      match cs with
      | [] => []
      | c :: rest => c :: removeBracketsGo fuel rest

/-- `re.sub(r'\s*\[.*?\]\s*', '', name)`. -/
def removeBrackets (cs : List Char) : List Char :=
  removeBracketsGo cs.length cs

/-- `[A-Z]`. -/
def isUpperAZ (c : Char) : Bool :=
  'A' ≤ c ∧ c ≤ 'Z'

/-- Does `-[A-Z][A-Z0-9]+$` match starting at the head position? -/
def groupTagAt (cs : List Char) : Bool :=
  match cs with
  | c0 :: c1 :: rest =>
    c0 = '-' && isUpperAZ c1 && !rest.isEmpty && rest.all (fun x => isUpperAZ x || x.isDigit)
  | _ => false

/-- `re.sub(r'-[A-Z][A-Z0-9]+$', '', name)`: drop the leftmost `-GROUP`
release-tag suffix. -/
def removeGroupTag : List Char → List Char
  | [] => []
  | c :: rest => if groupTagAt (c :: rest) then [] else c :: removeGroupTag rest

/-- The `[-–]` class of the trailing-annotation year patterns. -/
def isDashY (c : Char) : Bool :=
  c = '-' || c = '–'

/-- `(?:\s*[-–]\s*.*)?$` after the matched year. -/
def tailOkP2 (rest : List Char) : Bool :=
  rest.isEmpty ||
    (match (rest.dropWhile pyIsSpace).head? with
     | some c => isDashY c
     | none => false)

/-- `(?:\s+[-–]\s*.*)?$` (the space before the dash is mandatory here). -/
def tailOkP4 (rest : List Char) : Bool :=
  rest.isEmpty ||
    (!(rest.takeWhile pyIsSpace).isEmpty &&
      (match (rest.dropWhile pyIsSpace).head? with
       | some c => isDashY c
       | none => false))

/-- `\.(\d{4})(?:\.|$)` at the head position: year group. -/
def matchP1At (cs : List Char) : Option (List Char) :=
  match cs with
  | c0 :: a :: b :: c :: d :: rest =>
    if c0 = '.' ∧ a.isDigit ∧ b.isDigit ∧ c.isDigit ∧ d.isDigit ∧
        (rest.isEmpty ∨ rest.head? = some '.') then some [a, b, c, d]
    else none
  | _ => none

/-- `\s*\((\d{4})\)(?:\s*[-–]\s*.*)?$` at the head position. -/
def matchP2At (cs : List Char) : Option (List Char) :=
  match cs.dropWhile pyIsSpace with
  | c0 :: a :: b :: c :: d :: c1 :: rest =>
    if c0 = '(' ∧ a.isDigit ∧ b.isDigit ∧ c.isDigit ∧ d.isDigit ∧ c1 = ')' ∧
        tailOkP2 rest then some [a, b, c, d]
    else none
  | _ => none

/-- `\s*-\s*(\d{4})(?:\s*[-–]\s*.*)?$` at the head position. -/
def matchP3At (cs : List Char) : Option (List Char) :=
  match cs.dropWhile pyIsSpace with
  | c0 :: rest1 =>
    if c0 = '-' then
      match rest1.dropWhile pyIsSpace with
      | a :: b :: c :: d :: rest2 =>
        if a.isDigit ∧ b.isDigit ∧ c.isDigit ∧ d.isDigit ∧ tailOkP2 rest2 then
          some [a, b, c, d]
        else none
      | _ => none
    else none
  | [] => none

/-- `\s+(\d{4})(?:\s+[-–]\s*.*)?$` at the head position. -/
def matchP4At (cs : List Char) : Option (List Char) :=
  if (cs.takeWhile pyIsSpace).isEmpty then none
  else
    match cs.dropWhile pyIsSpace with
    | a :: b :: c :: d :: rest2 =>
      if a.isDigit ∧ b.isDigit ∧ c.isDigit ∧ d.isDigit ∧ tailOkP4 rest2 then
        some [a, b, c, d]
      else none
    | _ => none

/-- The year-extraction loop over `trailing_year_patterns`, first match wins.
Returns the year and the truncated working name (`name[:match.start()]`,
unstripped exactly for the dot-separated pattern). -/
def extractYear (parentheses_only : Bool) (cs : List Char) : Option Nat × List Char :=
  if parentheses_only then
    match searchWith matchP2At cs with
    | some (pre, y) => (some (digitsToNat y), stripList pre)
    | none => (none, cs)
  else
    match searchWith matchP1At cs with
    | some (pre, y) => (some (digitsToNat y), if cs.contains '.' then pre else stripList pre)
    | none =>
      match searchWith matchP2At cs with
      | some (pre, y) => (some (digitsToNat y), stripList pre)
      | none =>
        match searchWith matchP3At cs with
        | some (pre, y) => (some (digitsToNat y), stripList pre)
        | none =>
          match searchWith matchP4At cs with
          | some (pre, y) => (some (digitsToNat y), stripList pre)
          | none => (none, cs)

/-- `[Ss](\d+)[Ee](\d+)` at the head position: (season, episode) digit groups. -/
def matchSEAt (cs : List Char) : Option (List Char × List Char) :=
  match cs with
  | c :: rest =>
    if c = 'S' ∨ c = 's' then
      let ds := rest.takeWhile Char.isDigit
      if ds.isEmpty then none
      else
        match rest.dropWhile Char.isDigit with
        | e :: r2 =>
          if e = 'E' ∨ e = 'e' then
            let es := r2.takeWhile Char.isDigit
            if es.isEmpty then none else some (ds, es)
          else none
        | [] => none
    else none
  | [] => none

/-- `(\d+)[xX](\d+)` at the head position. -/
def matchNxNAt (cs : List Char) : Option (List Char × List Char) :=
  let ds := cs.takeWhile Char.isDigit
  if ds.isEmpty then none
  else
    match cs.dropWhile Char.isDigit with
    | x :: r2 =>
      if x = 'x' ∨ x = 'X' then
        let es := r2.takeWhile Char.isDigit
        if es.isEmpty then none else some (ds, es)
      else none
    | [] => none

/-- Case-sensitive literal prefix match, returning the rest. -/
def stripLit : List Char → List Char → Option (List Char)
  | [], cs => some cs
  | _ :: _, [] => none
  | l :: ls, c :: cs => if c = l then stripLit ls cs else none

/-- `[Ss]eason\s*(\d+)\s*[Ee]pisode\s*(\d+)` at the head position. -/
def matchSeasonWordAt (cs : List Char) : Option (List Char × List Char) :=
  match cs with
  | c :: rest =>
    if c = 'S' ∨ c = 's' then
      match stripLit "eason".data rest with
      | some r1 =>
        let r2 := r1.dropWhile pyIsSpace
        let ds := r2.takeWhile Char.isDigit
        if ds.isEmpty then none
        else
          let r3 := r2.dropWhile Char.isDigit
          match r3.dropWhile pyIsSpace with
          | e :: r5 =>
            if e = 'E' ∨ e = 'e' then
              match stripLit "pisode".data r5 with
              | some r6 =>
                let es := (r6.dropWhile pyIsSpace).takeWhile Char.isDigit
                if es.isEmpty then none else some (ds, es)
              | none => none
            else none
          | [] => none
      | none => none
    else none
  | [] => none

/-- `(\d+)\.(\d+)` at the head position. -/
def matchDotPairAt (cs : List Char) : Option (List Char × List Char) :=
  let ds := cs.takeWhile Char.isDigit
  if ds.isEmpty then none
  else
    match cs.dropWhile Char.isDigit with
    | c :: r2 =>
      if c = '.' then
        let es := r2.takeWhile Char.isDigit
        if es.isEmpty then none else some (ds, es)
      else none
    | [] => none

/-- `[Ee](\d+)` at the head position. -/
def matchEAt (cs : List Char) : Option (List Char) :=
  match cs with
  | c :: rest =>
    if c = 'E' ∨ c = 'e' then
      let ds := rest.takeWhile Char.isDigit
      if ds.isEmpty then none else some ds
    else none
  | [] => none

/-- `[Ee]pisode\s*(\d+)` at the head position. -/
def matchEpWordAt (cs : List Char) : Option (List Char) :=
  match cs with
  | c :: rest =>
    if c = 'E' ∨ c = 'e' then
      match stripLit "pisode".data rest with
      | some r1 =>
        let ds := (r1.dropWhile pyIsSpace).takeWhile Char.isDigit
        if ds.isEmpty then none else some ds
      | none => none
    else none
  | [] => none

/-- The `(?!\d)` lookahead: the next character must be absent or non-digit. -/
def noDigitHead : List Char → Bool
  | [] => true
  | c :: _ => !c.isDigit

/-- `(\d{3})(?!\d)` at the head position (the `(?<!^)` is handled by the
caller, which skips position 0). -/
def match3dAt (cs : List Char) : Option (List Char) :=
  match cs with
  | a :: b :: c :: rest =>
    if a.isDigit ∧ b.isDigit ∧ c.isDigit ∧ noDigitHead rest then some [a, b, c]
    else none
  | _ => none

/-- `searchWith` restricted to positions ≥ 1, for the `(?<!^)` lookbehind. -/
def searchFromOne {α : Type} (m : List Char → Option α) : List Char → Option (List Char × α)
  | [] => none
  | c :: cs =>
    match searchWith m cs with
    | some (pre, a) => some (c :: pre, a)
    | none => none

/-- `episode_num.startswith(('1', '2', '3', '4', '5'))`. -/
def startsWith1to5 : List Char → Bool
  | [] => false
  | d :: _ => d = '1' || d = '2' || d = '3' || d = '4' || d = '5'

/-- The shared `'episode'` handling: a 3-digit code starting 1–5 splits into
season/episode, everything else is episode-only. -/
def episodeOnlyResult (ds : List Char) : Option (List Char) × Option (List Char) :=
  if ds.length = 3 ∧ startsWith1to5 ds then
    (some (zfill2 (ds.take 1)), some (zfill2 (ds.drop 1)))
  else (none, some (zfill2 ds))

/-- The `season_episode_patterns` priority cascade: returns (season digits,
episode digits, truncated-and-stripped working name). -/
def extractSeasonEpisode (cs : List Char) :
    Option (List Char) × Option (List Char) × List Char :=
  match searchWith matchSEAt cs with
  | some (pre, s, e) => (some (zfill2 s), some (zfill2 e), stripList pre)
  | none =>
    match searchWith matchNxNAt cs with
    | some (pre, s, e) => (some (zfill2 s), some (zfill2 e), stripList pre)
    | none =>
      match searchWith matchSeasonWordAt cs with
      | some (pre, s, e) => (some (zfill2 s), some (zfill2 e), stripList pre)
      | none =>
        match searchWith matchDotPairAt cs with
        | some (pre, s, e) => (some (zfill2 s), some (zfill2 e), stripList pre)
        | none =>
          match searchWith matchEAt cs with
          | some (pre, ds) =>
            ((episodeOnlyResult ds).1, (episodeOnlyResult ds).2, stripList pre)
          | none =>
            match searchWith matchEpWordAt cs with
            | some (pre, ds) =>
              ((episodeOnlyResult ds).1, (episodeOnlyResult ds).2, stripList pre)
            | none =>
              match searchFromOne match3dAt cs with
              | some (pre, ds) =>
                ((episodeOnlyResult ds).1, (episodeOnlyResult ds).2, stripList pre)
              | none => (none, none, cs)

/-- A separator of `re.sub(r'[._-]+', ' ', name)`. -/
def isSepT (c : Char) : Bool :=
  c = '.' || c = '_' || c = '-'

/-- `re.sub(r'[._-]+', ' ', name)`: each separator run becomes one space. -/
def sepToSpaceGo : Bool → List Char → List Char
  | _, [] => []
  | prevSep, c :: cs =>
    if isSepT c then
      if prevSep then sepToSpaceGo true cs else ' ' :: sepToSpaceGo true cs
    else c :: sepToSpaceGo false cs

/-- `re.sub(r'\s+', ' ', title)`: each whitespace run becomes one space. -/
def collapseWsGo : Bool → List Char → List Char
  | _, [] => []
  | prevWs, c :: cs =>
    if pyIsSpace c then
      if prevWs then collapseWsGo true cs else ' ' :: collapseWsGo true cs
    else c :: collapseWsGo false cs

/-- `\w` (ASCII portion). -/
def isWordChar (c : Char) : Bool :=
  c.isAlpha || c.isDigit || c = '_'

/-- The opening `\b` of a quality token: the previous character (in original
coordinates) must be absent or a non-word character. -/
def wordStartOk : Option Char → Bool
  | none => true
  | some p => !isWordChar p

/-- The closing `\b`: the next character must be absent or non-word. -/
def notWordHead : List Char → Bool
  | [] => true
  | c :: _ => !isWordChar c

/-- `\b\d{3,4}p\b` at the head position, under `re.IGNORECASE` (greedy:
4 digits tried first). -/
def matchResAt (prev : Option Char) (cs : List Char) : Option (List Char × Option Char) :=
  if wordStartOk prev then
    match cs with
    | a :: b :: c :: d :: e :: rest =>
      if a.isDigit ∧ b.isDigit ∧ c.isDigit ∧ d.isDigit ∧ (e = 'p' ∨ e = 'P') ∧
          notWordHead rest then
        some (rest, some e)
      else if a.isDigit ∧ b.isDigit ∧ c.isDigit ∧ (d = 'p' ∨ d = 'P') ∧
          notWordHead (e :: rest) then
        some (e :: rest, some d)
      else none
    | [a, b, c, d] =>
      if a.isDigit ∧ b.isDigit ∧ c.isDigit ∧ (d = 'p' ∨ d = 'P') then some ([], some d)
      else none
    | _ => none
  else none

/-- Case-insensitive literal prefix match, returning the rest and the last
consumed character. -/
def stripCaseless : List Char → List Char → Option (List Char × Char)
  | [], _ => none
  | [l], c :: cs => if c.toLower = l.toLower then some (cs, c) else none
  | l :: ls, c :: cs => if c.toLower = l.toLower then stripCaseless ls cs else none
  | _, [] => none

/-- Try each alternative of a token alternation in order (with the closing
`\b` checked per alternative, as regex backtracking does). -/
def tryTokens : List (List Char) → List Char → Option (List Char × Char)
  | [], _ => none
  | t :: ts, cs =>
    match stripCaseless t cs with
    | some (rest, lastc) =>
      if notWordHead rest then some (rest, lastc) else tryTokens ts cs
    | none => tryTokens ts cs

/-- `\b(?:tok1|tok2|...)\b` (case-insensitive) at the head position. -/
def matchTokAt (toks : List (List Char)) (prev : Option Char) (cs : List Char) :
    Option (List Char × Option Char) :=
  if wordStartOk prev then
    match tryTokens toks cs with
    | some (rest, lastc) => some (rest, some lastc)
    | none => none
  else none

/-- Fueled driver for a global `re.sub(pattern, '', title)`: non-overlapping
matches, scanning resumes after each match, the previous original character is
tracked for `\b`. -/
def gsubGo (m : Option Char → List Char → Option (List Char × Option Char)) :
    Nat → Option Char → List Char → List Char
  | 0, _, cs => cs
  | fuel + 1, prev, cs =>
    match m prev cs with
    | some (after, lastc) => gsubGo m fuel lastc after
    | none =>
      match cs with
      | [] => []
      | c :: rest => c :: gsubGo m fuel (some c) rest

/-- Source tokens of the second quality pattern. -/
def q2Tokens : List (List Char) :=
  ["BluRay".data, "BLURAY".data, "BRRip".data, "BDRip".data, "WEB-DL".data,
   "WEBRip".data, "HDTV".data, "DVDRip".data]

/-- Codec tokens of the third quality pattern. -/
def q3Tokens : List (List Char) :=
  ["x264".data, "x265".data, "h264".data, "h265".data, "HEVC".data,
   "XviD".data, "DivX".data]

/-- Audio tokens of the fourth quality pattern. -/
def q4Tokens : List (List Char) :=
  ["AAC".data, "AC3".data, "DTS".data, "MP3".data, "FLAC".data]

/-- Flag tokens of the fifth quality pattern. -/
def q5Tokens : List (List Char) :=
  ["PROPER".data, "REPACK".data, "EXTENDED".data, "UNRATED".data]

/-- The five case-insensitive quality/source/codec `re.sub` passes. -/
def qualityStrip (cs : List Char) : List Char :=
  let t1 := gsubGo matchResAt cs.length none cs
  let t2 := gsubGo (matchTokAt q2Tokens) t1.length none t1
  let t3 := gsubGo (matchTokAt q3Tokens) t2.length none t2
  let t4 := gsubGo (matchTokAt q4Tokens) t3.length none t3
  gsubGo (matchTokAt q5Tokens) t4.length none t4

/-- `PlexFileNamer.parse_filename`: returns (title, year, season, episode)
with season/episode as zero-filled digit strings like the source. -/
def parse_filename (filename : String) (parentheses_only skip_episode_detection : Bool) :
    String × Option Nat × Option String × Option String :=
  let name0 := pathStemList filename.data
  let name1 := removeBrackets name0
  let name2 := removeGroupTag name1
  let yr := extractYear parentheses_only name2
  let se :=
    if skip_episode_detection then (none, none, yr.2)
    else extractSeasonEpisode yr.2
  let t1 := stripList (sepToSpaceGo false se.2.2)
  let t2 := qualityStrip t1
  let t3 := stripList (collapseWsGo false t2)
  (String.mk t3, yr.1, se.1.map String.mk, se.2.1.map String.mk)

example : parse_filename "Show.S01E02.Title.1080p.x264-GROUP.mkv" false false =
    ("Show", none, some "01", some "02") := by decide
example : parse_filename "Show.S01E02.mkv" false false =
    ("Show", none, some "01", some "02") := by decide
example : parse_filename "The.Matrix.1999.1080p.BluRay.x264-GROUP.mkv" false true =
    ("The Matrix", some 1999, none, none) := by decide
example : parse_filename "Movie (2019) [1080p H264].mp4" false true =
    ("Movie", some 2019, none, none) := by decide
example : parse_filename "12 Strong.mkv" false false =
    ("12 Strong", none, none, none) := by decide
example : parse_filename "Show 1x01 Pilot.mkv" false false =
    ("Show", none, some "01", some "01") := by decide
example : parse_filename "Show.101.mkv" false false =
    ("Show", none, some "01", some "01") := by decide
example : parse_filename "Show E05.mkv" false false =
    ("Show", none, none, some "05") := by decide
example : parse_filename "Title (2004) - extra.mkv" false false =
    ("Title", some 2004, none, none) := by decide
example : parse_filename "Some Movie - 2004.mkv" false true =
    ("Some Movie", some 2004, none, none) := by decide
example : parse_filename "Film 2004.mkv" false true =
    ("Film", some 2004, none, none) := by decide
example : parse_filename "Show Season 2 Episode 7 name.mkv" false false =
    ("Show", none, some "02", some "07") := by decide
example : parse_filename "Show.2.13.mkv" false false =
    ("Show", none, some "02", some "13") := by decide
example : parse_filename "Show Episode 9.mkv" false false =
    ("Show", none, none, some "09") := by decide
example : parse_filename "A.Movie.2019.PROPER.720p.mkv" false true =
    ("A Movie", some 2019, none, none) := by decide
example : parse_filename "Name 1080P Thing.mkv" false true =
    ("Name Thing", none, none, none) := by decide

/-! ## PlexFileNamer.analyze_tv_show and the folder helpers -/

/-- `^[Ss](\d+)$` (the `re.IGNORECASE` flag adds nothing here). -/
def matchSFolderNum (cs : List Char) : Option (List Char) :=
  match cs with
  | c :: rest =>
    if (c = 'S' || c = 's') && !rest.isEmpty && rest.all Char.isDigit then some rest else none
  | [] => none

/-- Case-insensitive literal prefix match, returning the rest. -/
def stripCaselessLit : List Char → List Char → Option (List Char)
  | [], cs => some cs
  | _ :: _, [] => none
  | l :: ls, c :: cs => if c.toLower = l.toLower then stripCaselessLit ls cs else none

/-- `^[Ss]eason\s*(\d+)$` under `re.IGNORECASE`. -/
def matchSeasonFolderNum (cs : List Char) : Option (List Char) :=
  match stripCaselessLit "season".data cs with
  | some r1 =>
    let r2 := r1.dropWhile pyIsSpace
    if !r2.isEmpty && r2.all Char.isDigit then some r2 else none
  | none => none

/-- `^(\d+)$`. -/
def matchNumFolder (cs : List Char) : Option (List Char) :=
  if !cs.isEmpty && cs.all Char.isDigit then some cs else none

/-- `PlexFileNamer.detect_season_from_folder` applied to the parent folder
name: the three season-folder patterns in source order. -/
def detect_season_from_folder (parent : String) : Option Nat :=
  match matchSFolderNum parent.data with
  | some ds => some (digitsToNat ds)
  | none =>
    match matchSeasonFolderNum parent.data with
    | some ds => some (digitsToNat ds)
    | none =>
      match matchNumFolder parent.data with
      | some ds => some (digitsToNat ds)
      | none => none

/-- The `is_season_folder` test of `extract_show_name_from_path`. -/
def isSeasonFolder (cs : List Char) : Bool :=
  (matchSFolderNum cs).isSome || (matchSeasonFolderNum cs).isSome ||
    (matchNumFolder cs).isSome

/-- `PlexFileNamer.extract_show_name_from_path`, with the parent and
grandparent folder names passed explicitly (an absent grandparent is `""`). -/
def extract_show_name_from_path (parent grandparent : String) : Option String :=
  let show_name :=
    if isSeasonFolder parent.data && grandparent ≠ "" then grandparent else parent
  let cleaned := String.mk (stripList (sepToSpaceGo false show_name.data))
  if cleaned ≠ "" then some cleaned else none

/-- The `movie_folder_names` set of `analyze_tv_show`. -/
def movieFolderNames : List String :=
  ["movies", "movie", "films", "film", "cinema", "motion pictures",
   "feature films", "features", "theatrical releases"]

/-- `needle in haystack` (Python substring test). -/
def isPrefixOfList : List Char → List Char → Bool
  | [], _ => true
  | _ :: _, [] => false
  | n :: ns, c :: cs => n = c && isPrefixOfList ns cs

/-- Python `needle in haystack` for strings. -/
def containsSub : List Char → List Char → Bool
  | needle, [] => needle.isEmpty
  | needle, c :: rest => isPrefixOfList needle (c :: rest) || containsSub needle rest

/-- The `in_movie_folder` test of `analyze_tv_show`: exact membership for the
parent and grandparent names, plus the substring tests `'movie' in
parent_lower` and `'film' in parent_lower` (parent only). -/
def in_movie_folder (parent grandparent : String) : Bool :=
  let parent_lower := pyLower parent
  let grandparent_lower := if grandparent ≠ "" then pyLower grandparent else ""
  movieFolderNames.contains parent_lower || movieFolderNames.contains grandparent_lower ||
    containsSub "movie".data parent_lower.data || containsSub "film".data parent_lower.data

/-- Result dict of `analyze_tv_show` (`in_movie_folder` is carried in the
source's `debug_info`). -/
structure TvAnalysis where
  show_name : String
  season : Option Nat
  episode : Option Nat
  year : Option Nat
  is_tv_show : Bool
  missing_episode_warning : Bool
  in_movie_folder : Bool
deriving DecidableEq

/-- `PlexFileNamer.analyze_tv_show`, with `file_path.name`,
`file_path.parent.name` and `file_path.parent.parent.name` passed explicitly. -/
def analyze_tv_show (filename parent grandparent : String)
    (parentheses_only : Bool) : TvAnalysis :=
  let imf := in_movie_folder parent grandparent
  let p := parse_filename filename parentheses_only imf
  let title_from_file := p.1
  let year := p.2.1
  let season_from_file := p.2.2.1
  let episode_from_file := p.2.2.2
  let season_from_folder := detect_season_from_folder parent
  let show_name_from_path := extract_show_name_from_path parent grandparent
  let final_episode :=
    match episode_from_file with
    | some e => if e ≠ "" then some (digitsToNat e.data) else none
    | none => none
  let final_season :=
    if truthyStrOpt season_from_file then
      some (digitsToNat ((season_from_file.getD "").data))
    else if truthyNatOpt final_episode && truthyNatOpt season_from_folder then
      season_from_folder
    else if truthyNatOpt final_episode then some 1
    else none
  let is_tv_show := final_episode.isSome && !imf
  let has_season_folder := season_from_folder.isSome
  let missing_episode_warning := has_season_folder && final_episode.isNone
  let final_show_name :=
    if is_tv_show && truthyStrOpt show_name_from_path &&
        !(truthyStrOpt season_from_file && title_from_file ≠ "") then
      show_name_from_path.getD ""
    else title_from_file
  ⟨final_show_name, final_season, final_episode, year, is_tv_show,
    missing_episode_warning, imf⟩

example : detect_season_from_folder "S1" = some 1 := by decide
example : detect_season_from_folder "s01" = some 1 := by decide
example : detect_season_from_folder "SEASON 3" = some 3 := by decide
example : detect_season_from_folder "season03" = some 3 := by decide
example : detect_season_from_folder "7" = some 7 := by decide
example : detect_season_from_folder "Shows" = none := by decide
example : extract_show_name_from_path "S1" "Grand.Parent" = some "Grand Parent" := by decide
example : extract_show_name_from_path "Shows" "Grand.Parent" = some "Shows" := by decide
example : in_movie_folder "shows" "My Movies Collection" = false := by decide
example : in_movie_folder "Movies" "" = true := by decide
example : in_movie_folder "My Filmography" "x" = true := by decide

lemma parse_filename_skip (filename : String) (parentheses_only : Bool) :
    (parse_filename filename parentheses_only true).2.2.1 = none ∧
      (parse_filename filename parentheses_only true).2.2.2 = none := by
  simp [parse_filename]

/-- C5 counterexample: the grandparent folder name `My Movies Collection`
contains the movie token `movies`, yet season/episode extraction still runs —
the containment test is applied to the parent folder only — so the file is
analysed as a TV episode. -/
theorem c5_counterexample :
    containsSub "movies".data (pyLower "My Movies Collection").data = true ∧
      (analyze_tv_show "Show.S01E02.mkv" "shows" "My Movies Collection" false).episode =
        some 2 ∧
      (analyze_tv_show "Show.S01E02.mkv" "shows" "My Movies Collection" false).is_tv_show =
        true := by
  decide

/-- C5 amended: the movie-folder override fires when the parent or grandparent
folder name exactly equals a movie token, or when the parent folder name (only)
contains `movie` or `film`; whenever it fires, episode extraction is skipped
regardless of caller intent, so the result carries no episode and is not
classified as a TV show. -/
theorem c5_amended (filename parent grandparent : String) (parentheses_only : Bool)
    (h : in_movie_folder parent grandparent = true) :
    (analyze_tv_show filename parent grandparent parentheses_only).episode = none ∧
      (analyze_tv_show filename parent grandparent parentheses_only).is_tv_show = false := by
  have hp := parse_filename_skip filename parentheses_only
  simp only [analyze_tv_show, h]
  rw [hp.2]
  simp

/-- C5 witness: the amended override on a file under a `Movies` folder. -/
theorem c5_amended_witness :
    (analyze_tv_show "Show.S01E02.mkv" "Movies" "" false).episode = none ∧
      (analyze_tv_show "Show.S01E02.mkv" "Movies" "" false).is_tv_show = false :=
  c5_amended "Show.S01E02.mkv" "Movies" "" false (by decide)

/-! ## C6: the `Show.SxxEyy.title.1080p.x264-GROUP.mkv` family

The schematic family binds four placeholders: the season digits `xx`, the
episode digits `yy`, the episode-title segment, and the `GROUP` release tag.
The claim theorem quantifies over all of them: the digits over arbitrary
digit characters, the title over arbitrary non-empty alphabetic segments,
and the group over arbitrary tags of the release-tag shape `[A-Z][A-Z0-9]+`. -/

lemma char_ne_of {p : Char → Bool} {c a : Char} (h : p c = true) (ha : p a = false) :
    (c = a) = False := by
  simp only [eq_iff_iff, iff_false]
  intro he
  rw [he, ha] at h
  cases h

lemma pyIsSpace_false_of {p : Char → Bool} {c : Char} (h : p c = true)
    (w1 : p ' ' = false) (w2 : p '\t' = false) (w3 : p '\n' = false)
    (w4 : p '\r' = false) (w5 : p '\x0b' = false) (w6 : p '\x0c' = false) :
    pyIsSpace c = false := by
  simp only [pyIsSpace, char_ne_of h w1, char_ne_of h w2, char_ne_of h w3,
    char_ne_of h w4, char_ne_of h w5, char_ne_of h w6, decide_False, Bool.or_self,
    Bool.or_false]

lemma isDigit_false_of_isAlpha {c : Char} (h : c.isAlpha = true) : c.isDigit = false := by
  cases hd : c.isDigit
  · rfl
  · exfalso
    have hA : ('0' : Char) ≤ c ∧ c ≤ '9' := by simpa [Char.isDigit] using hd
    have hB : (('A' : Char) ≤ c ∧ c ≤ 'Z') ∨ (('a' : Char) ≤ c ∧ c ≤ 'z') := by
      simpa [Char.isAlpha, Char.isUpper, Char.isLower] using h
    rcases hB with ⟨hB1, _⟩ | ⟨hB1, _⟩
    · exact absurd (le_trans hB1 hA.2) (by decide)
    · exact absurd (le_trans hB1 hA.2) (by decide)

/-- The separator facts the scanners need about a digit character. -/
lemma digitFacts {c : Char} (h : c.isDigit = true) :
    pyIsSpace c = false ∧ (c = '[') = False ∧ (c = '(') = False ∧
      (c = '-') = False ∧ (c = '.') = False :=
  ⟨pyIsSpace_false_of h (by decide) (by decide) (by decide) (by decide) (by decide)
      (by decide),
    char_ne_of h (by decide), char_ne_of h (by decide), char_ne_of h (by decide),
    char_ne_of h (by decide)⟩

/-- The separator facts the scanners need about an alphabetic title character. -/
lemma alphaFacts {c : Char} (h : c.isAlpha = true) :
    pyIsSpace c = false ∧ (c = '[') = False ∧ (c = '(') = False ∧
      (c = '-') = False ∧ (c = '.') = False ∧ c.isDigit = false :=
  ⟨pyIsSpace_false_of h (by decide) (by decide) (by decide) (by decide) (by decide)
      (by decide),
    char_ne_of h (by decide), char_ne_of h (by decide), char_ne_of h (by decide),
    char_ne_of h (by decide), isDigit_false_of_isAlpha h⟩

/-- The facts the bracket scan needs about a release-tag character. -/
lemma tagFacts {c : Char} (h : (isUpperAZ c || c.isDigit) = true) :
    pyIsSpace c = false ∧ (c = '[') = False :=
  ⟨@pyIsSpace_false_of (fun x => isUpperAZ x || x.isDigit) c h (by decide) (by decide)
      (by decide) (by decide) (by decide) (by decide),
    @char_ne_of (fun x => isUpperAZ x || x.isDigit) c '[' h (by decide)⟩
/-- The scan fails on the empty list when the matcher does. -/
lemma searchWith_nil_none {α : Type} {m : List Char → Option α}
    (h : m [] = none) : searchWith m [] = none := by
  simp [searchWith, h]

/-- One failing step of the leftmost-match scan. -/
lemma searchWith_cons_none {α : Type} {m : List Char → Option α} {c : Char}
    {cs : List Char} (h1 : m (c :: cs) = none) (h2 : searchWith m cs = none) :
    searchWith m (c :: cs) = none := by
  simp [searchWith, h1, h2]

/-- The scan skips a block of characters at which the matcher always fails. -/
lemma searchWith_append_none {α : Type} {m : List Char → Option α} {y : List Char}
    (hy : searchWith m y = none) :
    ∀ {x : List Char}, (∀ c ∈ x, ∀ cs, m (c :: cs) = none) →
      searchWith m (x ++ y) = none := by
  intro x
  induction x with
  | nil => intro _; simpa using hy
  | cons c x' ih =>
    intro hx
    rw [List.cons_append]
    exact searchWith_cons_none (hx c (List.mem_cons_self c x') (x' ++ y))
      (ih fun d hd cs => hx d (List.mem_cons_of_mem c hd) cs)

/-- The scan fails on a list of characters at which the matcher always fails. -/
lemma searchWith_none_of_mem {α : Type} {m : List Char → Option α}
    (hnil : m [] = none) :
    ∀ {x : List Char}, (∀ c ∈ x, ∀ cs, m (c :: cs) = none) → searchWith m x = none := by
  intro x
  induction x with
  | nil => intro _; exact searchWith_nil_none hnil
  | cons c x' ih =>
    intro hx
    exact searchWith_cons_none (hx c (List.mem_cons_self c x') x')
      (ih fun d hd cs => hx d (List.mem_cons_of_mem c hd) cs)

/-- `\.(\d{4})(?:\.|$)` cannot match where the first character is not a dot. -/
lemma matchP1At_none_head {c : Char} (h : (c = '.') = False) :
    ∀ cs, matchP1At (c :: cs) = none := by
  intro cs
  rcases cs with _ | ⟨a, _ | ⟨b, _ | ⟨d, _ | ⟨e, r⟩⟩⟩⟩ <;> simp [matchP1At, h]

/-- `\.(\d{4})(?:\.|$)` cannot match at a dot followed by a non-digit. -/
lemma matchP1At_none_dot {c : Char} (h : c.isDigit = false) :
    ∀ cs, matchP1At ('.' :: c :: cs) = none := by
  intro cs
  rcases cs with _ | ⟨a, _ | ⟨b, _ | ⟨d, r⟩⟩⟩ <;> simp [matchP1At, h]

/-- The parenthesised-year pattern cannot match at a non-space, non-paren head. -/
lemma matchP2At_none_head {c : Char} (h1 : pyIsSpace c = false) (h2 : (c = '(') = False) :
    ∀ cs, matchP2At (c :: cs) = none := by
  intro cs
  rcases cs with _ | ⟨a, _ | ⟨b, _ | ⟨d, _ | ⟨e, _ | ⟨f, r⟩⟩⟩⟩⟩ <;>
    simp [matchP2At, List.dropWhile_cons, h1, h2]

/-- The dash-year pattern cannot match at a non-space, non-dash head. -/
lemma matchP3At_none_head {c : Char} (h1 : pyIsSpace c = false) (h2 : (c = '-') = False) :
    ∀ cs, matchP3At (c :: cs) = none := by
  intro cs
  simp [matchP3At, List.dropWhile_cons, h1, h2]

/-- The space-year pattern cannot match at a non-space head. -/
lemma matchP4At_none_head {c : Char} (h1 : pyIsSpace c = false) :
    ∀ cs, matchP4At (c :: cs) = none := by
  intro cs
  simp [matchP4At, List.takeWhile_cons, h1]

/-- The bracket pattern cannot match at a non-space, non-bracket head. -/
lemma matchBracketAt_none_head {c : Char} (h1 : pyIsSpace c = false)
    (h2 : (c = '[') = False) : ∀ cs, matchBracketAt (c :: cs) = none := by
  intro cs
  simp [matchBracketAt, List.dropWhile_cons, h1, h2]

/-- The release-tag pattern cannot match at a non-dash head. -/
lemma groupTagAt_false_head {c : Char} (h : (c = '-') = False) :
    ∀ cs, groupTagAt (c :: cs) = false := by
  intro cs
  rcases cs with _ | ⟨a, r⟩ <;> simp [groupTagAt, h]
/-- When the appended tail holds a dot, the last dot overall lies in the tail. -/
lemma lastDotPos_append_some {y : List Char} {n : Nat} (hy : lastDotPos y = some n) :
    ∀ x : List Char, lastDotPos (x ++ y) = some (x.length + n) := by
  intro x
  induction x with
  | nil => simpa using hy
  | cons c x' ih =>
    rw [List.cons_append]
    simp only [lastDotPos, ih, List.length_cons]
    congr 1
    omega

/-- Splitting off a `.mkv` suffix: the stem is everything before it. -/
lemma pathStemList_mkv {body : List Char} (hne : body ≠ []) :
    pathStemList (body ++ '.' :: 'm' :: 'k' :: 'v' :: []) = body := by
  have hdot : lastDotPos ('.' :: 'm' :: 'k' :: 'v' :: []) = some 0 := rfl
  simp only [pathStemList, lastDotPos_append_some hdot body, Nat.add_zero]
  rw [if_pos]
  · exact List.take_left body ('.' :: 'm' :: 'k' :: 'v' :: [])
  · refine ⟨List.length_pos.mpr hne, ?_⟩
    simp only [List.length_append, List.length_cons, List.length_nil]
    omega

/-- The bracket-removal pass is the identity on bracket-free, space-free text. -/
lemma removeBracketsGo_id :
    ∀ (fuel : Nat) (cs : List Char),
      (∀ c ∈ cs, pyIsSpace c = false ∧ (c = '[') = False) →
      removeBracketsGo fuel cs = cs := by
  intro fuel
  induction fuel with
  | zero => intro cs _; rfl
  | succ fuel ih =>
    intro cs hcs
    cases cs with
    | nil => rfl
    | cons c rest =>
      have hc := hcs c (List.mem_cons_self c rest)
      simp only [removeBracketsGo, matchBracketAt_none_head hc.1 hc.2 rest]
      exact congrArg (List.cons c) (ih rest fun d hd => hcs d (List.mem_cons_of_mem c hd))

/-- `re.sub(r'\s*\[.*?\]\s*', '', name)` on bracket-free, space-free text. -/
lemma removeBrackets_id {cs : List Char}
    (h : ∀ c ∈ cs, pyIsSpace c = false ∧ (c = '[') = False) :
    removeBrackets cs = cs :=
  removeBracketsGo_id cs.length cs h

/-- The release-tag removal passes over dash-free text. -/
lemma removeGroupTag_append :
    ∀ {x : List Char} (y : List Char), (∀ c ∈ x, (c = '-') = False) →
      removeGroupTag (x ++ y) = x ++ removeGroupTag y := by
  intro x
  induction x with
  | nil => intro y _; rfl
  | cons c x' ih =>
    intro y hx
    rw [List.cons_append]
    simp only [removeGroupTag,
      groupTagAt_false_head (hx c (List.mem_cons_self c x')) (x' ++ y),
      Bool.false_eq_true, if_false]
    rw [ih y fun d hd => hx d (List.mem_cons_of_mem c hd), List.cons_append]

/-- A well-formed release tag at the end of the name is removed entirely. -/
lemma removeGroupTag_tag {gc gr0 : Char} {gr : List Char} (hgc : isUpperAZ gc = true)
    (hgr0 : (isUpperAZ gr0 || gr0.isDigit) = true)
    (hgr : ∀ c ∈ gr, (isUpperAZ c || c.isDigit) = true) :
    removeGroupTag ('-' :: gc :: gr0 :: gr) = [] := by
  have hg : groupTagAt ('-' :: gc :: gr0 :: gr) = true := by
    simp [groupTagAt, hgc, hgr0, List.all_eq_true]
    exact fun x hx => by simpa using hgr x hx
  simp [removeGroupTag, hg]
lemma digitYearFacts {c : Char} (h : c.isDigit = true) :
    pyIsSpace c = false ∧ (c = '(') = False ∧ (c = '-') = False :=
  ⟨(digitFacts h).1, (digitFacts h).2.2.1, (digitFacts h).2.2.2.1⟩

lemma alphaYearFacts {c : Char} (h : c.isAlpha = true) :
    pyIsSpace c = false ∧ (c = '(') = False ∧ (c = '-') = False :=
  ⟨(alphaFacts h).1, (alphaFacts h).2.2.1, (alphaFacts h).2.2.2.1⟩

lemma digitBrFacts {c : Char} (h : c.isDigit = true) :
    pyIsSpace c = false ∧ (c = '[') = False :=
  ⟨(digitFacts h).1, (digitFacts h).2.1⟩

lemma alphaBrFacts {c : Char} (h : c.isAlpha = true) :
    pyIsSpace c = false ∧ (c = '[') = False :=
  ⟨(alphaFacts h).1, (alphaFacts h).2.1⟩

/-- Every character of the group-stripped working name is non-space and is
neither `'('` nor `'-'`. -/
lemma c6_pre_mem (d1 d2 d3 d4 t0 : Char) (t1 : List Char)
    (h1 : d1.isDigit = true) (h2 : d2.isDigit = true) (h3 : d3.isDigit = true)
    (h4 : d4.isDigit = true) (ht0 : t0.isAlpha = true)
    (ht1 : ∀ c ∈ t1, c.isAlpha = true) :
    ∀ c ∈ ('S' :: 'h' :: 'o' :: 'w' :: '.' :: 'S' :: d1 :: d2 :: 'E' :: d3 :: d4 :: '.' ::
        t0 :: (t1 ++ ('.' :: '1' :: '0' :: '8' :: '0' :: 'p' :: '.' :: 'x' :: '2' :: '6' ::
          '4' :: []))),
      pyIsSpace c = false ∧ (c = '(') = False ∧ (c = '-') = False := by
  intro c hc
  simp only [List.mem_cons, List.mem_append, List.not_mem_nil, or_false] at hc
  rcases hc with rfl | rfl | rfl | rfl | rfl | rfl | rfl | rfl | rfl | rfl | rfl | rfl |
    rfl | hc | rfl | rfl | rfl | rfl | rfl | rfl | rfl | rfl | rfl | rfl | rfl
  all_goals first
    | exact ⟨by decide, eq_false (by decide), eq_false (by decide)⟩
    | exact digitYearFacts h1
    | exact digitYearFacts h2
    | exact digitYearFacts h3
    | exact digitYearFacts h4
    | exact alphaYearFacts ht0
    | exact alphaYearFacts (ht1 _ hc)

/-- Every character of the stemmed name (group tag still present) is non-space
and is not `'['`. -/
lemma c6_body_mem (d1 d2 d3 d4 t0 gc gr0 : Char) (t1 gr : List Char)
    (h1 : d1.isDigit = true) (h2 : d2.isDigit = true) (h3 : d3.isDigit = true)
    (h4 : d4.isDigit = true) (ht0 : t0.isAlpha = true)
    (ht1 : ∀ c ∈ t1, c.isAlpha = true) (hgc : isUpperAZ gc = true)
    (hgr0 : (isUpperAZ gr0 || gr0.isDigit) = true)
    (hgr : ∀ c ∈ gr, (isUpperAZ c || c.isDigit) = true) :
    ∀ c ∈ ('S' :: 'h' :: 'o' :: 'w' :: '.' :: 'S' :: d1 :: d2 :: 'E' :: d3 :: d4 :: '.' ::
        t0 :: (t1 ++ ('.' :: '1' :: '0' :: '8' :: '0' :: 'p' :: '.' :: 'x' :: '2' :: '6' ::
          '4' :: '-' :: gc :: gr0 :: gr))),
      pyIsSpace c = false ∧ (c = '[') = False := by
  intro c hc
  simp only [List.mem_cons, List.mem_append] at hc
  rcases hc with rfl | rfl | rfl | rfl | rfl | rfl | rfl | rfl | rfl | rfl | rfl | rfl |
    rfl | hc | rfl | rfl | rfl | rfl | rfl | rfl | rfl | rfl | rfl | rfl | rfl | rfl |
    rfl | rfl | hc
  all_goals first
    | exact ⟨by decide, eq_false (by decide)⟩
    | exact digitBrFacts h1
    | exact digitBrFacts h2
    | exact digitBrFacts h3
    | exact digitBrFacts h4
    | exact alphaBrFacts ht0
    | exact alphaBrFacts (ht1 _ hc)
    | exact tagFacts hgr0
    | exact tagFacts (hgr _ hc)
    | exact tagFacts (by simp [hgc])

/-- The dotted-year scan finds nothing in the group-stripped working name. -/
lemma c6_p1_none (d1 d2 d3 d4 t0 : Char) (t1 : List Char)
    (h1 : d1.isDigit = true) (h2 : d2.isDigit = true) (h3 : d3.isDigit = true)
    (h4 : d4.isDigit = true) (ht0 : t0.isAlpha = true)
    (ht1 : ∀ c ∈ t1, c.isAlpha = true) :
    searchWith matchP1At ('S' :: 'h' :: 'o' :: 'w' :: '.' :: 'S' :: d1 :: d2 :: 'E' :: d3 ::
      d4 :: '.' :: t0 :: (t1 ++ ('.' :: '1' :: '0' :: '8' :: '0' :: 'p' :: '.' :: 'x' ::
        '2' :: '6' :: '4' :: []))) = none := by
  have w0 : searchWith matchP1At
      ('.' :: '1' :: '0' :: '8' :: '0' :: 'p' :: '.' :: 'x' :: '2' :: '6' :: '4' :: []) =
      none := by decide
  have w1 := searchWith_append_none w0
    (fun c hc cs => matchP1At_none_head (char_ne_of (ht1 c hc) (by decide)) cs)
  have w2 := searchWith_cons_none
    (matchP1At_none_head (char_ne_of ht0 (by decide)) _) w1
  have w3 := searchWith_cons_none
    (matchP1At_none_dot (isDigit_false_of_isAlpha ht0) _) w2
  have w4 := searchWith_cons_none
    (matchP1At_none_head (char_ne_of h4 (by decide)) _) w3
  have w5 := searchWith_cons_none
    (matchP1At_none_head (char_ne_of h3 (by decide)) _) w4
  have w6 := searchWith_cons_none
    (matchP1At_none_head (show (('E' : Char) = '.') = False from eq_false (by decide)) _) w5
  have w7 := searchWith_cons_none
    (matchP1At_none_head (char_ne_of h2 (by decide)) _) w6
  have w8 := searchWith_cons_none
    (matchP1At_none_head (char_ne_of h1 (by decide)) _) w7
  have w9 := searchWith_cons_none
    (matchP1At_none_head (show (('S' : Char) = '.') = False from eq_false (by decide)) _) w8
  have w10 := searchWith_cons_none
    (matchP1At_none_dot (show ('S' : Char).isDigit = false by decide) _) w9
  have w11 := searchWith_cons_none
    (matchP1At_none_head (show (('w' : Char) = '.') = False from eq_false (by decide)) _) w10
  have w12 := searchWith_cons_none
    (matchP1At_none_head (show (('o' : Char) = '.') = False from eq_false (by decide)) _) w11
  have w13 := searchWith_cons_none
    (matchP1At_none_head (show (('h' : Char) = '.') = False from eq_false (by decide)) _) w12
  exact searchWith_cons_none
    (matchP1At_none_head (show (('S' : Char) = '.') = False from eq_false (by decide)) _) w13

/-- The year-extraction loop finds nothing in the group-stripped working name. -/
lemma c6_year_gen (d1 d2 d3 d4 t0 : Char) (t1 : List Char)
    (h1 : d1.isDigit = true) (h2 : d2.isDigit = true) (h3 : d3.isDigit = true)
    (h4 : d4.isDigit = true) (ht0 : t0.isAlpha = true)
    (ht1 : ∀ c ∈ t1, c.isAlpha = true) :
    extractYear false ('S' :: 'h' :: 'o' :: 'w' :: '.' :: 'S' :: d1 :: d2 :: 'E' :: d3 ::
        d4 :: '.' :: t0 :: (t1 ++ ('.' :: '1' :: '0' :: '8' :: '0' :: 'p' :: '.' :: 'x' ::
          '2' :: '6' :: '4' :: []))) =
      (none, 'S' :: 'h' :: 'o' :: 'w' :: '.' :: 'S' :: d1 :: d2 :: 'E' :: d3 ::
        d4 :: '.' :: t0 :: (t1 ++ ('.' :: '1' :: '0' :: '8' :: '0' :: 'p' :: '.' :: 'x' ::
          '2' :: '6' :: '4' :: []))) := by
  have hmem := c6_pre_mem d1 d2 d3 d4 t0 t1 h1 h2 h3 h4 ht0 ht1
  have hp1 := c6_p1_none d1 d2 d3 d4 t0 t1 h1 h2 h3 h4 ht0 ht1
  have hp2 : searchWith matchP2At ('S' :: 'h' :: 'o' :: 'w' :: '.' :: 'S' :: d1 :: d2 ::
      'E' :: d3 :: d4 :: '.' :: t0 :: (t1 ++ ('.' :: '1' :: '0' :: '8' :: '0' :: 'p' ::
        '.' :: 'x' :: '2' :: '6' :: '4' :: []))) = none :=
    searchWith_none_of_mem rfl
      (fun c hc cs => matchP2At_none_head (hmem c hc).1 (hmem c hc).2.1 cs)
  have hp3 : searchWith matchP3At ('S' :: 'h' :: 'o' :: 'w' :: '.' :: 'S' :: d1 :: d2 ::
      'E' :: d3 :: d4 :: '.' :: t0 :: (t1 ++ ('.' :: '1' :: '0' :: '8' :: '0' :: 'p' ::
        '.' :: 'x' :: '2' :: '6' :: '4' :: []))) = none :=
    searchWith_none_of_mem rfl
      (fun c hc cs => matchP3At_none_head (hmem c hc).1 (hmem c hc).2.2 cs)
  have hp4 : searchWith matchP4At ('S' :: 'h' :: 'o' :: 'w' :: '.' :: 'S' :: d1 :: d2 ::
      'E' :: d3 :: d4 :: '.' :: t0 :: (t1 ++ ('.' :: '1' :: '0' :: '8' :: '0' :: 'p' ::
        '.' :: 'x' :: '2' :: '6' :: '4' :: []))) = none :=
    searchWith_none_of_mem rfl
      (fun c hc cs => matchP4At_none_head (hmem c hc).1 cs)
  simp only [extractYear, Bool.false_eq_true, if_false, hp1, hp2, hp3, hp4]

set_option maxHeartbeats 1000000 in
/-- The season/episode scan matches at the `SxxEyy` block, whatever follows
the episode digits after the separating dot. -/
lemma extractSeasonEpisode_sxxeyy (d1 d2 d3 d4 : Char) (rest : List Char)
    (h1 : d1.isDigit = true) (h2 : d2.isDigit = true) (h3 : d3.isDigit = true)
    (h4 : d4.isDigit = true) :
    extractSeasonEpisode ('S' :: 'h' :: 'o' :: 'w' :: '.' :: 'S' :: d1 :: d2 :: 'E' :: d3 ::
        d4 :: '.' :: rest) =
      (some [d1, d2], some [d3, d4], ['S', 'h', 'o', 'w', '.']) := by
  simp [extractSeasonEpisode, searchWith, matchSEAt, zfill2, stripList, pyIsSpace,
    List.dropWhile_cons, List.takeWhile_cons, h1, h2, h3, h4,
    char_ne_of h1 (show ('S' : Char).isDigit = false by decide),
    char_ne_of h1 (show ('s' : Char).isDigit = false by decide),
    char_ne_of h2 (show ('S' : Char).isDigit = false by decide),
    char_ne_of h2 (show ('s' : Char).isDigit = false by decide),
    char_ne_of h3 (show ('S' : Char).isDigit = false by decide),
    char_ne_of h3 (show ('s' : Char).isDigit = false by decide),
    char_ne_of h4 (show ('S' : Char).isDigit = false by decide),
    char_ne_of h4 (show ('s' : Char).isDigit = false by decide)]
set_option maxHeartbeats 1000000 in
/-- C6: for every filename of the schematic family
`Show.SxxEyy.<title>.1080p.x264-<GROUP>.mkv` — with `xx`, `yy` arbitrary
two-digit numbers, `<title>` an arbitrary non-empty alphabetic episode-title
segment `t0 :: t1`, and `<GROUP>` an arbitrary release tag `gc :: gr0 :: gr`
of the uppercase release-tag shape `[A-Z][A-Z0-9]+` — the parser extracts
exactly season `xx`, episode `yy`, and the title `Show`, which the
quality/codec stripping passes leave untouched (it contains no quality
tokens). -/
theorem c6_sxxeyy_extraction (d1 d2 d3 d4 t0 gc gr0 : Char) (t1 gr : List Char)
    (h1 : d1.isDigit = true) (h2 : d2.isDigit = true) (h3 : d3.isDigit = true)
    (h4 : d4.isDigit = true) (ht0 : t0.isAlpha = true)
    (ht1 : ∀ c ∈ t1, c.isAlpha = true) (hgc : isUpperAZ gc = true)
    (hgr0 : (isUpperAZ gr0 || gr0.isDigit) = true)
    (hgr : ∀ c ∈ gr, (isUpperAZ c || c.isDigit) = true) :
    parse_filename
        (String.mk ("Show.S".data ++ [d1, d2] ++ "E".data ++ [d3, d4] ++ ".".data ++
          (t0 :: t1) ++ ".1080p.x264-".data ++ (gc :: gr0 :: gr) ++ ".mkv".data))
        false false =
      ("Show", none, some (String.mk [d1, d2]), some (String.mk [d3, d4])) ∧
    qualityStrip "Show".data = "Show".data := by
  refine ⟨?_, by decide⟩
  have hL : "Show.S".data ++ [d1, d2] ++ "E".data ++ [d3, d4] ++ ".".data ++
      (t0 :: t1) ++ ".1080p.x264-".data ++ (gc :: gr0 :: gr) ++ ".mkv".data =
      ('S' :: 'h' :: 'o' :: 'w' :: '.' :: 'S' :: d1 :: d2 :: 'E' :: d3 :: d4 :: '.' ::
        t0 :: (t1 ++ ('.' :: '1' :: '0' :: '8' :: '0' :: 'p' :: '.' :: 'x' :: '2' :: '6' ::
          '4' :: '-' :: gc :: gr0 :: gr))) ++ '.' :: 'm' :: 'k' :: 'v' :: [] := by
    simp
  rw [hL]
  have hstem : pathStemList (('S' :: 'h' :: 'o' :: 'w' :: '.' :: 'S' :: d1 :: d2 :: 'E' ::
      d3 :: d4 :: '.' :: t0 :: (t1 ++ ('.' :: '1' :: '0' :: '8' :: '0' :: 'p' :: '.' ::
        'x' :: '2' :: '6' :: '4' :: '-' :: gc :: gr0 :: gr))) ++
      '.' :: 'm' :: 'k' :: 'v' :: []) =
      'S' :: 'h' :: 'o' :: 'w' :: '.' :: 'S' :: d1 :: d2 :: 'E' :: d3 :: d4 :: '.' ::
        t0 :: (t1 ++ ('.' :: '1' :: '0' :: '8' :: '0' :: 'p' :: '.' :: 'x' :: '2' :: '6' ::
          '4' :: '-' :: gc :: gr0 :: gr)) :=
    pathStemList_mkv (by simp)
  have hbr : removeBrackets ('S' :: 'h' :: 'o' :: 'w' :: '.' :: 'S' :: d1 :: d2 :: 'E' ::
      d3 :: d4 :: '.' :: t0 :: (t1 ++ ('.' :: '1' :: '0' :: '8' :: '0' :: 'p' :: '.' ::
        'x' :: '2' :: '6' :: '4' :: '-' :: gc :: gr0 :: gr))) =
      'S' :: 'h' :: 'o' :: 'w' :: '.' :: 'S' :: d1 :: d2 :: 'E' :: d3 :: d4 :: '.' ::
        t0 :: (t1 ++ ('.' :: '1' :: '0' :: '8' :: '0' :: 'p' :: '.' :: 'x' :: '2' :: '6' ::
          '4' :: '-' :: gc :: gr0 :: gr)) :=
    removeBrackets_id
      (c6_body_mem d1 d2 d3 d4 t0 gc gr0 t1 gr h1 h2 h3 h4 ht0 ht1 hgc hgr0 hgr)
  have hmem := c6_pre_mem d1 d2 d3 d4 t0 t1 h1 h2 h3 h4 ht0 ht1
  have hgrp : removeGroupTag ('S' :: 'h' :: 'o' :: 'w' :: '.' :: 'S' :: d1 :: d2 :: 'E' ::
      d3 :: d4 :: '.' :: t0 :: (t1 ++ ('.' :: '1' :: '0' :: '8' :: '0' :: 'p' :: '.' ::
        'x' :: '2' :: '6' :: '4' :: '-' :: gc :: gr0 :: gr))) =
      'S' :: 'h' :: 'o' :: 'w' :: '.' :: 'S' :: d1 :: d2 :: 'E' :: d3 :: d4 :: '.' ::
        t0 :: (t1 ++ ('.' :: '1' :: '0' :: '8' :: '0' :: 'p' :: '.' :: 'x' :: '2' :: '6' ::
          '4' :: [])) := by
    have hsplit : 'S' :: 'h' :: 'o' :: 'w' :: '.' :: 'S' :: d1 :: d2 :: 'E' :: d3 :: d4 ::
        '.' :: t0 :: (t1 ++ ('.' :: '1' :: '0' :: '8' :: '0' :: 'p' :: '.' :: 'x' :: '2' ::
          '6' :: '4' :: '-' :: gc :: gr0 :: gr)) =
        ('S' :: 'h' :: 'o' :: 'w' :: '.' :: 'S' :: d1 :: d2 :: 'E' :: d3 :: d4 :: '.' ::
          t0 :: (t1 ++ ('.' :: '1' :: '0' :: '8' :: '0' :: 'p' :: '.' :: 'x' :: '2' :: '6' ::
            '4' :: []))) ++ '-' :: gc :: gr0 :: gr := by
      simp
    rw [hsplit,
      removeGroupTag_append ('-' :: gc :: gr0 :: gr) (fun c hc => (hmem c hc).2.2),
      removeGroupTag_tag hgc hgr0 hgr, List.append_nil]
  have hyear := c6_year_gen d1 d2 d3 d4 t0 t1 h1 h2 h3 h4 ht0 ht1
  have hse := extractSeasonEpisode_sxxeyy d1 d2 d3 d4
    (t0 :: (t1 ++ ('.' :: '1' :: '0' :: '8' :: '0' :: 'p' :: '.' :: 'x' :: '2' :: '6' ::
      '4' :: []))) h1 h2 h3 h4
  simp only [parse_filename, hstem, hbr, hgrp, hyear, hse, Bool.false_eq_true, if_false,
    Option.map_some']
  have htitle : String.mk (stripList (collapseWsGo false (qualityStrip (stripList
      (sepToSpaceGo false ['S', 'h', 'o', 'w', '.']))))) = "Show" := by decide
  rw [htitle]

/-- C6 witness: season 01, episode 02, title segment `Title`, group `GROUP`. -/
theorem c6_sxxeyy_extraction_witness :
    parse_filename
        (String.mk ("Show.S".data ++ ['0', '1'] ++ "E".data ++ ['0', '2'] ++ ".".data ++
          ('T' :: "itle".data) ++ ".1080p.x264-".data ++ ('G' :: 'R' :: "OUP".data) ++
          ".mkv".data)) false false =
      ("Show", none, some (String.mk ['0', '1']), some (String.mk ['0', '2'])) ∧
    qualityStrip "Show".data = "Show".data :=
  c6_sxxeyy_extraction '0' '1' '0' '2' 'T' 'G' 'R' "itle".data "OUP".data
    (by decide) (by decide) (by decide) (by decide) (by decide) (by decide) (by decide)
    (by decide) (by decide)

/-! ## process_video_file: air-date extraction and TV name-form selection

`process_video_file` (TV branch): after `analyze_tv_show`, a date found in the
filename sets `is_date_based` and clears season/episode (lines 2021–2060);
`find_episode_by_date` — an opaque search collaborator whose response is the
`episode_by_date` argument — may later repopulate them, and the formatter then
prefers the season/episode form (lines 2082–2143). -/

/-- `(\d{4})[-.](\d{1,2})[-.](\d{1,2})` at the head position →
`(match[0], match[1], match[2])`. -/
def matchD1At (cs : List Char) : Option (List Char × List Char × List Char) :=
  match cs with
  | a :: b :: c :: d :: s1 :: rest1 =>
    if a.isDigit ∧ b.isDigit ∧ c.isDigit ∧ d.isDigit ∧ (s1 = '-' ∨ s1 = '.') then
      let g2 := rest1.takeWhile Char.isDigit
      if g2.length = 1 ∨ g2.length = 2 then
        match rest1.dropWhile Char.isDigit with
        | s2 :: rest2 =>
          if s2 = '-' ∨ s2 = '.' then
            let g3run := rest2.takeWhile Char.isDigit
            if g3run.isEmpty then none else some ([a, b, c, d], g2, g3run.take 2)
          else none
        | [] => none
      else none
    else none
  | _ => none

/-- `(\d{1,2})[-.](\d{1,2})[-.](\d{4})` at the head position. -/
def matchD2At (cs : List Char) : Option (List Char × List Char × List Char) :=
  let g1 := cs.takeWhile Char.isDigit
  if g1.length = 1 ∨ g1.length = 2 then
    match cs.dropWhile Char.isDigit with
    | s1 :: rest1 =>
      if s1 = '-' ∨ s1 = '.' then
        let g2 := rest1.takeWhile Char.isDigit
        if g2.length = 1 ∨ g2.length = 2 then
          match rest1.dropWhile Char.isDigit with
          | s2 :: rest2 =>
            if s2 = '-' ∨ s2 = '.' then
              let g3run := rest2.takeWhile Char.isDigit
              if 4 ≤ g3run.length then some (g1, g2, g3run.take 4) else none
            else none
          | [] => none
        else none
      else none
    | [] => none
  else none

/-- `\b(\d{1,2})[-.](\d{1,2})[-.](\d{2})\b` at the head position;
the opening `\b` is checked against the previous original character. -/
def matchD3At (prev : Option Char) (cs : List Char) :
    Option (List Char × List Char × List Char) :=
  if wordStartOk prev then
    let g1 := cs.takeWhile Char.isDigit
    if g1.length = 1 ∨ g1.length = 2 then
      match cs.dropWhile Char.isDigit with
      | s1 :: rest1 =>
        if s1 = '-' ∨ s1 = '.' then
          let g2 := rest1.takeWhile Char.isDigit
          if g2.length = 1 ∨ g2.length = 2 then
            match rest1.dropWhile Char.isDigit with
            | s2 :: y1 :: y2 :: rest3 =>
              if (s2 = '-' ∨ s2 = '.') ∧ y1.isDigit ∧ y2.isDigit ∧ notWordHead rest3 then
                some (g1, g2, [y1, y2])
              else none
            | _ => none
          else none
        else none
      | [] => none
    else none
  else none

/-- Leftmost-match scan tracking the previous original character (for `\b`). -/
def searchWithPrev {α : Type} (m : Option Char → List Char → Option α) :
    Option Char → List Char → Option α
  | prev, [] => m prev []
  | prev, c :: cs =>
    match m prev (c :: cs) with
    | some a => some a
    | none => searchWithPrev m (some c) cs

/-- The branch chain of lines 2036–2051: interpret the first match of a date
pattern by group shape, then validate the assembled `YYYY-MM-DD` string with
`datetime.strptime` (equivalently, `datetime` component validation). -/
def interpDateTriple (m : List Char × List Char × List Char) : Option String :=
  let g0 := m.1
  let g1 := m.2.1
  let g2 := m.2.2
  let dmy :=
    if g2.length = 2 then (g0, g1, toYear4 g2)
    else if g0.length = 4 then (g2, g1, g0)
    else (g0, g1, g2)
  let day := dmy.1
  let month := dmy.2.1
  let yearStr := dmy.2.2
  if isValidDate (digitsToNat yearStr) (digitsToNat month) (digitsToNat day) then
    some (String.mk (yearStr ++ '-' :: zfill2 month ++ '-' :: zfill2 day))
  else none

/-- Lines 2021–2060 restricted to the date search itself: try the three
unanchored patterns in order on the lower-cased stem; a pattern whose first
match fails validation falls through to the next pattern. -/
def extractAirDate (stem : String) : Option String :=
  let cs := (pyLower stem).data
  let t1 :=
    match searchWith matchD1At cs with
    | some (_, m) => interpDateTriple m
    | none => none
  match t1 with
  | some d => some d
  | none =>
    let t2 :=
      match searchWith matchD2At cs with
      | some (_, m) => interpDateTriple m
      | none => none
    match t2 with
    | some d => some d
    | none =>
      match searchWithPrev matchD3At none cs with
      | some m => interpDateTriple m
      | none => none

example : extractAirDate "coronation street 14-09-15" = some "2015-09-14" := by decide
example : extractAirDate "show 2015-09-14" = none := by decide
example : extractAirDate "show 2015-09-5" = some "2015-09-05" := by decide
example : extractAirDate "show 14-09-2015" = some "2015-09-14" := by decide
example : extractAirDate "show 99-99-99" = none := by decide
example : extractAirDate "plain name" = none := by decide

/-- The state update of lines 2021–2060: starting from `air_date = None`,
`is_date_based = False`, a date extracted from the filename (only tried when
an explicit show name is given) sets `is_date_based` and clears the
season/episode derived from analysis.  Returns
(season, episode, air_date, is_date_based). -/
def dateDetectUpdate (stem : String) (show_name_truthy : Bool)
    (season episode : Option Nat) : Option Nat × Option Nat × Option String × Bool :=
  if show_name_truthy then
    match extractAirDate stem with
    | some d => (none, none, some d, true)
    | none => (season, episode, none, false)
  else (season, episode, none, false)

/-- The episode record returned by the `find_episode_by_date` collaborator. -/
structure EpisodeByDate where
  season_number : Nat
  episode_number : Nat
deriving DecidableEq

/-- The three name renderings a TV file can receive (lines 2113–2143). -/
inductive TvNameForm where
  | seasonEpisode (season episode : Nat)
  | dateBased (air_date : String) (part_number : Option Nat)
  | defaultSE
deriving DecidableEq

/-- Lines 2082–2143: the air-date episode lookup followed by the format
choice.  `episode_by_date` is the collaborator's response to
`find_episode_by_date`; `none` as result models the `return None` skip for a
date-based show whose episode cannot be found. -/
def tvEpisodeFlow (season episode : Option Nat) (air_date : Option String)
    (is_date_based : Bool) (part_number : Option Nat)
    (episode_by_date : Option EpisodeByDate) : Option TvNameForm :=
  let lookup := truthyStrOpt air_date && !(truthyNatOpt season && truthyNatOpt episode)
  let resolved : Option (Option Nat × Option Nat) :=
    if lookup then
      match episode_by_date with
      | some ep => some (some ep.season_number, some ep.episode_number)
      | none => if is_date_based then none else some (season, episode)
    else some (season, episode)
  match resolved with
  | none => none
  | some (season2, episode2) =>
    if truthyNatOpt season2 && truthyNatOpt episode2 then
      some (TvNameForm.seasonEpisode (season2.getD 0) (episode2.getD 0))
    else if is_date_based && truthyStrOpt air_date then
      some (TvNameForm.dateBased (air_date.getD "") part_number)
    else some TvNameForm.defaultSE

/-- C2 counterexample: a date-based file (`is_date_based = true`, season and
episode cleared by the date extraction) whose air-date lookup resolves an
episode is rendered in the season/episode form, not the date-based form — the
formatter prefers a resolved season/episode pair over `is_date_based`. -/
theorem c2_counterexample :
    tvEpisodeFlow none none (some "2015-09-14") true none (some ⟨31, 5⟩) =
        some (TvNameForm.seasonEpisode 31 5) ∧
      tvEpisodeFlow none none (some "2015-09-14") true none (some ⟨31, 5⟩) ≠
        some (TvNameForm.dateBased "2015-09-14" none) := by
  decide

/-- C2 amended: when a date is extracted from the filename, `is_date_based` is
set and season/episode are cleared at that point; but at formatting time a
truthy season/episode pair — e.g. one resolved by the air-date episode
lookup — takes priority and is rendered as `sNNeNN` even when `is_date_based`
is true; the date-based form is used only when no such pair is present. -/
theorem c2_amended :
    (∀ stem d (season episode : Option Nat), extractAirDate stem = some d →
        dateDetectUpdate stem true season episode = (none, none, some d, true)) ∧
      (∀ (s e : Nat) air idb pt ebd, s ≠ 0 → e ≠ 0 →
        tvEpisodeFlow (some s) (some e) air idb pt ebd =
          some (TvNameForm.seasonEpisode s e)) := by
  constructor
  · intro stem d season episode h
    simp [dateDetectUpdate, h]
  · intro s e air idb pt ebd hs he
    simp [tvEpisodeFlow, truthyNatOpt, hs, he]

/-- C2 witness: the amended clauses at a concrete date-based filename and at a
concrete resolved season/episode pair with `is_date_based = true`. -/
theorem c2_amended_witness :
    dateDetectUpdate "coronation street 14-09-15" true (some 20) (some 15) =
        (none, none, some "2015-09-14", true) ∧
      tvEpisodeFlow (some 3) (some 12) (some "2015-09-14") true none none =
        some (TvNameForm.seasonEpisode 3 12) :=
  ⟨c2_amended.1 "coronation street 14-09-15" "2015-09-14" (some 20) (some 15) (by decide),
   c2_amended.2 3 12 (some "2015-09-14") true none none (by decide) (by decide)⟩

end PlexRenamer
